import Mathlib

/-!
# RentAThing frontend: a shallow embedding of `src/frontend/app.js`

The client is a vanilla-JavaScript single-page application.  This file embeds
the session store (`getToken`, `setAuth`, `clearAuth`, `getUser`), the API
client (`api`), the hash router (`getRoute`, `navigate`), the render loop
(`render`) and the view resolvers (`renderHome`, `renderBookings`, ...), and
proves properties of them.

Conventions of the embedding.

* A JavaScript value is a `JVal`.  A number is carried as its canonical
  `ToString` rendering (two numbers are `===` exactly when the renderings agree
  and are not `NaN`; `0` and `-0` both render as `0`).
* Everything the browser supplies is a field of `Host`: `JSON.parse`,
  `JSON.stringify`, `fetch`, HTML encoding, number and date formatting.
* An `async` function is an `Act`: a function from the `World` (local storage,
  location hash, painted page, event log) to an outcome.  `await` is modelled as
  running the awaited action to completion, so interleavings of overlapping
  render cycles are outside the model.
* `render` and `navigate` call each other; the recursion is cut by a fuel
  argument and running out of fuel is the outcome `Res.stuck`.
-/

namespace RentAThing

/-! ## JavaScript values -/

/-- A JavaScript exception: its constructor name and its `message`. -/
structure JsError where
  name : String
  message : String
  deriving DecidableEq, Repr

/-- The value of `new Error(message)`. -/
def mkError (message : String) : JsError := ⟨"Error", message⟩

/-- A `TypeError` raised by the engine (property read on `null`, call of a non-function). -/
def mkTypeError (message : String) : JsError := ⟨"TypeError", message⟩

/-- JavaScript values that occur in this program: JSON data plus `undefined`.
A number is its canonical decimal rendering; an object is its list of fields,
the first binding of a key being the one in effect. -/
inductive JVal where
  | undefined
  | null
  | bool (b : Bool)
  | num (text : String)
  | str (s : String)
  | arr (xs : List JVal)
  | obj (fields : List (String × JVal))
  deriving Inhabited

/-- JavaScript truthiness (`ToBoolean`). -/
def JVal.truthy : JVal → Bool
  | .undefined => false
  | .null => false
  | .bool b => b
  | .num t => t != "0" && t != "NaN"
  | .str s => s != ""
  | .arr _ => true
  | .obj _ => true

/-- The test `v === 'literal'` against a string literal. -/
def JVal.isStr (v : JVal) (s : String) : Bool :=
  match v with
  | .str t => t == s
  | _ => false

/-- The test `Array.isArray(v)`. -/
def JVal.isArray : JVal → Bool
  | .arr _ => true
  | _ => false

/-- The expression `a || b`. -/
def JVal.or (a b : JVal) : JVal := if a.truthy then a else b

/-- Reading a data property `v.key`.  Reading from `null` or `undefined` throws a
`TypeError`; an object yields the field or `undefined`; the keys this program
reads this way (`detail`, `items`, `role`, ...) are not built-in properties of
strings, numbers, booleans or arrays, which therefore yield `undefined`. -/
def JVal.getProp (v : JVal) (key : String) : Except JsError JVal :=
  match v with
  | .undefined =>
    .error (mkTypeError ("Cannot read properties of undefined (reading " ++ key ++ ")"))
  | .null =>
    .error (mkTypeError ("Cannot read properties of null (reading " ++ key ++ ")"))
  | .obj fields => .ok ((fields.lookup key).getD .undefined)
  | _ => .ok .undefined

/-- The expression `s || d` for a string that may be `null`/`undefined`. -/
def orStr (s : Option String) (d : String) : String :=
  match s with
  | some t => if t = "" then d else t
  | none => d

/-- Truthiness of a string that may be `null`/`undefined`. -/
def truthyStr (s : Option String) : Bool :=
  match s with
  | some t => t != ""
  | none => false

/-! ## Strings -/

/-- Splitting of a character list at every occurrence of a one-character separator. -/
def splitChars (sep : Char) : List Char → List (List Char)
  | [] => [[]]
  | c :: cs =>
    if c = sep then [] :: splitChars sep cs
    else
      match splitChars sep cs with
      | [] => [[c]]
      | seg :: segs => (c :: seg) :: segs

/-- The call `s.split(sep)` for a one-character separator. -/
def jsSplit (s : String) (sep : Char) : List String :=
  (splitChars sep s.data).map String.mk

/-- The call `s.slice(1)`.  It is applied to the location hash, which is empty
or starts with `#`, so dropping one character is dropping one code unit. -/
def jsSlice1 (s : String) : String := String.mk (s.data.drop 1)

/-- The call `s.slice(0, 8)`, counted in characters. -/
def jsSlice08 (s : String) : String := String.mk (s.data.take 8)

/-- The call `s.endsWith(t)`. -/
def jsEndsWith (s t : String) : Bool := t.data.isSuffixOf s.data

/-- The part of a character list before the first occurrence of `pat`, and the
part after it; `none` when `pat` does not occur. -/
def breakAt (pat : List Char) : List Char → Option (List Char × List Char)
  | [] => if pat = [] then some ([], []) else none
  | c :: cs =>
    if pat.isPrefixOf (c :: cs) then some ([], (c :: cs).drop pat.length)
    else
      match breakAt pat cs with
      | some (pre, post) => some (c :: pre, post)
      | none => none

/-- The call `s.includes(t)`. -/
def jsIncludes (s t : String) : Bool := (breakAt t.data s.data).isSome

/-- The call `s.replace(t, '')`: the first occurrence of `t` is removed. -/
def jsRemoveFirst (s t : String) : String :=
  match breakAt t.data s.data with
  | some (pre, post) => String.mk (pre ++ post)
  | none => s

/-- The expression `s.split(t)[0]` for a non-empty separator `t`. -/
def jsSplitHead (s t : String) : String :=
  match breakAt t.data s.data with
  | some (pre, _) => String.mk pre
  | none => s

/-! ## JavaScript objects with string values (request headers) -/

/-- An object whose values are strings, as its list of own properties in
insertion order. -/
abbrev StrObj := List (String × String)

/-- The assignment `o[k] = v`: an existing property keeps its place. -/
def StrObj.set : StrObj → String → String → StrObj
  | [], k, v => [(k, v)]
  | (k', v') :: rest, k, v =>
    if k' = k then (k, v) :: rest else (k', v') :: StrObj.set rest k v

/-- The read `o[k]`; `none` is `undefined`. -/
def StrObj.get (o : StrObj) (k : String) : Option String := o.lookup k

/-- The spread `{ ...base, ...extra }`. -/
def StrObj.spread (base extra : StrObj) : StrObj :=
  extra.foldl (fun acc kv => StrObj.set acc kv.1 kv.2) base

/-! ## Requests, events, host and world -/

/-- The second argument of `api`: the fields of a `fetch` init object that this
program sets. -/
structure Options where
  method : Option String
  body : Option String
  headers : Option StrObj
  deriving DecidableEq, Repr

/-- The default `options = {}`. -/
def Options.empty : Options := ⟨none, none, none⟩

/-- What `fetch` is called with: the URL and `{ ...options, headers }`. -/
structure Request where
  url : String
  method : Option String
  body : Option String
  headers : StrObj
  deriving DecidableEq, Repr

/-- What `api` reads of a `fetch` response.  `json` is the outcome of
`res.json()`: `none` when the body is not JSON and the promise rejects. -/
structure Response where
  ok : Bool
  statusText : String
  json : Option JVal

/-- Callbacks that the views hand to `setTimeout(..., 0)` or `addEventListener`. -/
inductive Handler where
  | logout
  | loginSubmit
  | registerSubmit
  | bookSubmit
  | addItemSubmit
  | editItemSubmit (id : String)
  | ownerBookingClicks
  | reviewSubmit (itemId : String)
  deriving DecidableEq, Repr

/-- Observable effects, in the order they happen. -/
inductive Event where
  | fetch (req : Request)
  | render
  | navigate (path : String)
  | alert (message : String)
  | setTimeout (h : Handler)
  | listen (h : Handler)
  deriving DecidableEq, Repr

/-- Local storage: the entries, most recently written first. -/
abbrev Storage := List (String × String)

/-- The call `localStorage.getItem(k)`; `none` is `null`. -/
def Storage.getItem (s : Storage) (k : String) : Option String := s.lookup k

/-- The call `localStorage.removeItem(k)`. -/
def Storage.removeItem (s : Storage) (k : String) : Storage :=
  s.filter (fun kv => kv.1 != k)

/-- The call `localStorage.setItem(k, v)`. -/
def Storage.setItem (s : Storage) (k v : String) : Storage :=
  (k, v) :: Storage.removeItem s k

/-- The browser: every built-in this program calls. -/
structure Host where
  /-- The constant `API_BASE`. -/
  apiBase : String
  /-- The call `JSON.parse(text)`; it throws a `SyntaxError` on malformed text. -/
  jsonParse : String → Except JsError JVal
  /-- The call `JSON.stringify(value)`. -/
  jsonStringify : JVal → String
  /-- The call `fetch(url, init)`, given the events so far; an error is a rejected promise. -/
  fetch : List Event → Request → Except JsError Response
  /-- The rendering of an array by `Array.prototype.toString`. -/
  arrayToString : List JVal → String
  /-- HTML encoding of text (`div.textContent = s; div.innerHTML`). -/
  htmlEncode : String → String
  /-- The expression `Number(v).toFixed(2)`. -/
  toFixed2 : JVal → String
  /-- The expression `new Date(v).toLocaleString()`. -/
  toLocaleString : JVal → String
  /-- The expression `new Date(v).toLocaleDateString()`. -/
  toLocaleDateString : JVal → String
  /-- The call `s.toLowerCase()`. -/
  toLowerCase : String → String
  /-- The comparison `i < v` of a loop index with a value (`ToNumber` on `v`). -/
  indexLess : Nat → JVal → Bool

/-- The mutable state the program runs against. -/
structure World where
  /-- The entries of `localStorage`. -/
  storage : Storage
  /-- The value of `window.location.hash`. -/
  hash : String
  /-- Whether `document.getElementById('app')` finds an element. -/
  hasApp : Bool
  /-- The painted navigation bar. -/
  nav : String
  /-- The painted content of `<main>`. -/
  main : String
  /-- The events so far, oldest first. -/
  log : List Event

/-- Outcome of running an action: a value, a thrown exception, or fuel exhausted. -/
inductive Res (α : Type) where
  | ok (a : α) (w : World)
  | throw (e : JsError) (w : World)
  | stuck

/-- An effectful computation over the world. -/
def Act (α : Type) : Type := World → Res α

/-- Running an action from a world. -/
def Act.run {α : Type} (m : Act α) (w : World) : Res α := m w

/-- The action that returns `a`. -/
def Act.pure {α : Type} (a : α) : Act α := fun w => .ok a w

/-- Sequencing: an exception or exhaustion of the first action ends the run. -/
def Act.bind {α β : Type} (m : Act α) (f : α → Act β) : Act β := fun w =>
  match m w with
  | .ok a w1 => f a w1
  | .throw e w1 => .throw e w1
  | .stuck => .stuck

instance : Monad Act where
  pure := Act.pure
  bind := Act.bind

/-- The statement `throw e`. -/
def Act.throw {α : Type} (e : JsError) : Act α := fun w => .throw e w

/-- The statement `try { m } catch (e) { h e }`. -/
def Act.tryCatch {α : Type} (m : Act α) (h : JsError → Act α) : Act α := fun w =>
  match m w with
  | .ok a w1 => .ok a w1
  | .throw e w1 => h e w1
  | .stuck => .stuck

/-- An expression that may throw, run as an action. -/
def Act.ofExcept {α : Type} : Except JsError α → Act α
  | .ok a => Act.pure a
  | .error e => Act.throw e

/-- Recording an event. -/
def emit (e : Event) : Act Unit := fun w =>
  .ok () { w with log := w.log ++ [e] }

/-- Reading the current world. -/
def getWorld : Act World := fun w => .ok w w

/-- The first paint `app.innerHTML = ...` (source line 89): the navigation bar
and the loading placeholder. -/
def paintChrome (nav : String) : Act Unit := fun w =>
  .ok () { w with nav := nav, main := "<p class=\"loading\">Loading...</p>" }

/-- The assignment `mainEl.innerHTML = main`. -/
def setMain (main : String) : Act Unit := fun w =>
  .ok () { w with main := main }

/-- The world an outcome ends in, if any. -/
def Res.world? {α : Type} : Res α → Option World
  | .ok _ w => some w
  | .throw _ w => some w
  | .stuck => none

/-- The exception an outcome ends with, if any. -/
def Res.error? {α : Type} : Res α → Option JsError
  | .throw e _ => some e
  | _ => none

/-- The value an outcome returns, if any. -/
def Res.value? {α : Type} : Res α → Option α
  | .ok a _ => some a
  | _ => none

/-- The `fetch` requests among a list of events. -/
def fetches : List Event → List Request
  | [] => []
  | .fetch req :: rest => req :: fetches rest
  | _ :: rest => fetches rest

/-- The number of `render()` entries among a list of events. -/
def renders : List Event → Nat
  | [] => 0
  | .render :: rest => renders rest + 1
  | _ :: rest => renders rest

/-! ## String conversion -/

/-- The `ToString` conversion used by template literals and `new Error(v)`. -/
def toStr (H : Host) : JVal → String
  | .undefined => "undefined"
  | .null => "null"
  | .bool true => "true"
  | .bool false => "false"
  | .num t => t
  | .str s => s
  | .arr xs => H.arrayToString xs
  | .obj _ => "[object Object]"

/-- The function `escapeHtml` (source lines 126-131). -/
def escapeHtml (H : Host) (s : JVal) : String :=
  match s with
  | .undefined => ""
  | .null => ""
  | v => H.htmlEncode (toStr H v)

/-! ## Session store (source lines 9-33) -/

/-- The constant `TOKEN_KEY`. -/
def TOKEN_KEY : String := "rentathing_access_token"

/-- The constant `USER_KEY`. -/
def USER_KEY : String := "rentathing_user"

/-- The function `getToken`. -/
def getToken (s : Storage) : Option String := s.getItem TOKEN_KEY

/-- The function `setAuth`; the token is written through `ToString`. -/
def setAuth (H : Host) (token user : JVal) (s : Storage) : Storage :=
  let s1 := if token.truthy then s.setItem TOKEN_KEY (toStr H token) else s
  if user.truthy then s1.setItem USER_KEY (H.jsonStringify user) else s1

/-- The function `clearAuth`. -/
def clearAuth (s : Storage) : Storage :=
  (s.removeItem TOKEN_KEY).removeItem USER_KEY

/-- The function `getUser`, with its `try`/`catch` explicit: the result is an
`Except` so that "does not throw" is a statement about the code. -/
def getUser (H : Host) (s : Storage) : Except JsError JVal :=
  match H.jsonParse (orStr (s.getItem USER_KEY) "null") with
  | .ok v => .ok v
  | .error _ => .ok .null

/-- The user read by a resolver: `getUser()` as a value (`getUser` never throws). -/
def currentUser (H : Host) (s : Storage) : JVal :=
  match getUser H s with
  | .ok v => v
  | .error _ => .null

/-! ## API client (source lines 35-48) -/

/-- The request `api` hands to `fetch` (source lines 36-44). -/
def buildRequest (H : Host) (path : String) (options : Options) (s : Storage) : Request :=
  let url := H.apiBase ++ path
  let headers := StrObj.spread [("Content-Type", "application/json")] (options.headers.getD [])
  let token := getToken s
  let headers :=
    if truthyStr token then StrObj.set headers "Authorization" ("Bearer " ++ token.getD "")
    else headers
  { url := url, method := options.method, body := options.body, headers := headers }

/-- The value `data` of source line 45. -/
def responseData (res : Response) : JVal :=
  if res.ok then res.json.getD (.obj [])
  else res.json.getD (.obj [("detail", .str res.statusText)])

/-- The argument of `new Error(...)` on source line 46, given `data.detail`. -/
def errorMessage (H : Host) (detail : JVal) (statusText : String) : String :=
  if detail.isArray then "Validation error"
  else toStr H (detail.or (.str statusText))

/-- The function `api`. -/
def api (H : Host) (path : String) (options : Options) : Act JVal := fun w =>
  let req := buildRequest H path options w.storage
  let w1 : World := { w with log := w.log ++ [Event.fetch req] }
  match H.fetch w.log req with
  | .error e => .throw e w1
  | .ok res =>
    let data := responseData res
    if !res.ok then
      match data.getProp "detail" with
      | .error e => .throw e w1
      | .ok detail => .throw (mkError (errorMessage H detail res.statusText)) w1
    else .ok data w1

/-! ## Router (source lines 53-62) -/

/-- The parsed location: `id` is `null` (`none`) or a string. -/
structure Route where
  path : String
  id : Option String
  deriving DecidableEq, Repr

/-- The array `hash.split('/').filter(Boolean)` of `getRoute`, where `hash` is
the fragment without its leading `#`, or `home` when that is empty. -/
def segments (locationHash : String) : List String :=
  let hash := orStr (some (jsSlice1 (orStr (some locationHash) "#"))) "home"
  (jsSplit hash '/').filter (fun s => s != "")

/-- The function `getRoute`, as a function of `window.location.hash`. -/
def getRoute (locationHash : String) : Route :=
  let parts := segments locationHash
  { path := orStr parts[0]? "home"
    id := if truthyStr parts[1]? then parts[1]? else none }

/-- The resolver call that `render` selects (source lines 99-110). -/
inductive View where
  | login
  | register
  | home
  | item (id : String)
  | addItem
  | editItem (id : String)
  | myItems
  | ownerBookings
  | messages
  | itemReviews (itemId : String)
  | bookings
  deriving DecidableEq, Repr

/-- The `if`/`else if` chain of `render` (source lines 99-110): which resolver
is called, and with which argument. -/
def dispatch (route : Route) : View :=
  let id := route.id.getD ""
  if route.path = "login" then .login
  else if route.path = "register" then .register
  else if route.path = "home" then .home
  else if route.path = "item" ∧ truthyStr route.id then .item id
  else if route.path = "items" ∧ route.id = some "new" then .addItem
  else if route.path = "items" ∧ truthyStr route.id ∧ jsEndsWith id "/edit" then
    .editItem (jsRemoveFirst id "/edit")
  else if route.path = "my-items" then .myItems
  else if route.path = "owner-bookings" then .ownerBookings
  else if route.path = "messages" then .messages
  else if route.path = "item" ∧ truthyStr route.id ∧ jsIncludes id "/reviews" then
    .itemReviews (jsSplitHead id "/reviews")
  else if route.path = "bookings" then .bookings
  else .home

/-! ## Helpers of the views -/

/-- Truthiness of `v.length` for a truthy `v`. -/
def lengthTruthy : JVal → Bool
  | .arr xs => !xs.isEmpty
  | .str s => s != ""
  | .obj fields => ((fields.lookup "length").getD .undefined).truthy
  | _ => false

/-- The expression `v.map(f).join('')`: only an array has `map`. -/
def mapJoin (f : JVal → Except JsError String) (v : JVal) : Except JsError String :=
  match v with
  | .arr xs => (xs.mapM f).map String.join
  | _ => .error (mkTypeError "map is not a function")

/-- The expression `v.slice(0, 8)`: strings and arrays have `slice`. -/
def sliceVal08 (v : JVal) : Except JsError JVal :=
  match v with
  | .str s => .ok (.str (jsSlice08 s))
  | .arr xs => .ok (.arr (xs.take 8))
  | .undefined => .error (mkTypeError "Cannot read properties of undefined (reading slice)")
  | .null => .error (mkTypeError "Cannot read properties of null (reading slice)")
  | _ => .error (mkTypeError "slice is not a function")

/-- The expression `(v || '').toLowerCase()`: only a string has `toLowerCase`. -/
def lowerOrEmpty (H : Host) (v : JVal) : Except JsError String :=
  match v.or (.str "") with
  | .str s => .ok (H.toLowerCase s)
  | _ => .error (mkTypeError "toLowerCase is not a function")

/-- The test `a === b` on values of two different parses: primitives are
compared by value, arrays and objects are never identical. -/
def JVal.strictEq : JVal → JVal → Bool
  | .undefined, .undefined => true
  | .null, .null => true
  | .bool a, .bool b => a == b
  | .num a, .num b => a == b && a != "NaN"
  | .str a, .str b => a == b
  | _, _ => false

/-- Reading the session user inside a view: `const user = getUser()`. -/
def readUser (H : Host) : Act JVal := fun w => .ok (currentUser H w.storage) w

/-- What reading `window.location.hash` returns after `window.location.hash = v`. -/
def assignedHash (v : String) : String :=
  if v = "#" ∨ v = "" then ""
  else if v.data.head? = some '#' then v
  else "#" ++ v

/-- A call `render()` whose promise is not awaited: a rejection is not seen by the caller. -/
def callRender (rerender : Act Unit) : Act Unit := fun w =>
  match rerender w with
  | .ok _ w1 => .ok () w1
  | .throw _ w1 => .ok () w1
  | .stuck => .stuck

/-- The function `navigate` (source lines 53-56); `rerender` is `render`. -/
def navigate (rerender : Act Unit) (path : String) : Act Unit := fun w =>
  callRender rerender
    { w with hash := assignedHash (orStr (some path) "#"), log := w.log ++ [Event.navigate path] }

/-- The placeholder a gated view returns after `navigate('login')`. -/
def redirecting : String := "<p class=\"loading\">Redirecting...</p>"

/-- The static panel `<div class="card"><p class="error">...</p></div>`. -/
def errorPanel (text : String) : String :=
  "<div class=\"card\"><p class=\"error\">" ++ text ++ "</p></div>"

/-- The test `user.role !== 'OWNER' && user.role !== 'ADMIN'` on a truthy user. -/
def notOwner (user : JVal) : Bool :=
  match user.getProp "role" with
  | .ok role => !role.isStr "OWNER" && !role.isStr "ADMIN"
  | .error _ => true

/-! ## Views without a session gate: login, register, listings (source lines 134-227) -/

/-- The function `renderLogin`: a static form; the submit handler is deferred. -/
def renderLogin : Act String := do
  emit (.setTimeout .loginSubmit)
  pure "
    <h1 class=\"page-title\">Log in</h1>
    <div class=\"card\">
      <form id=\"login-form\">
        <label>Email <input type=\"email\" name=\"email\" required /></label>
        <label>Password <input type=\"password\" name=\"password\" required /></label>
        <p id=\"login-error\" class=\"error\" style=\"display:none\"></p>
        <button type=\"submit\">Log in</button>
      </form>
    </div>
  "

/-- The function `renderRegister`: a static form; the submit handler is deferred. -/
def renderRegister : Act String := do
  emit (.setTimeout .registerSubmit)
  pure "
    <h1 class=\"page-title\">Register</h1>
    <div class=\"card\">
      <form id=\"register-form\">
        <label>Email <input type=\"email\" name=\"email\" required /></label>
        <label>Full name <input type=\"text\" name=\"full_name\" /></label>
        <label>Password <input type=\"password\" name=\"password\" minlength=\"8\" required /></label>
        <label>Role
          <select name=\"role\">
            <option value=\"RENTER\">Renter</option>
            <option value=\"OWNER\">Owner</option>
          </select>
        </label>
        <p id=\"register-error\" class=\"error\" style=\"display:none\"></p>
        <button type=\"submit\">Register</button>
      </form>
    </div>
  "

/-- The card of one item in `renderHome` (source lines 218-224). -/
def homeCard (H : Host) (i : JVal) : Except JsError String := do
  let id ← i.getProp "id"
  let title ← i.getProp "title"
  let description ← i.getProp "description"
  let daily_price ← i.getProp "daily_price"
  pure ("
        <a href=\"#item/" ++ toStr H id ++ "\" class=\"item-card\">
          <h3>" ++ escapeHtml H title ++ "</h3>
          <p class=\"meta\">" ++ escapeHtml H (description.or (.str "—")) ++ "</p>
          <p class=\"price\">$" ++ H.toFixed2 daily_price ++ " / day</p>
        </a>
      ")

/-- The empty-state message of `renderHome`. -/
def homeEmpty : String :=
  "<p class=\"empty\">No items yet. Register as Owner and add items via API or a future dashboard.</p>"

/-- The function `renderHome`: the fetch is not inside a `try`. -/
def renderHome (H : Host) : Act String := do
  let data ← api H "/items?limit=50" Options.empty
  let items := (← Act.ofExcept (data.getProp "items")).or (.arr [])
  let list ←
    if lengthTruthy items then do
      let cards ← Act.ofExcept (mapJoin (homeCard H) items)
      pure ("<div class=\"items-grid\">" ++ cards ++ "</div>")
    else pure homeEmpty
  pure ("<h1 class=\"page-title\">Browse items</h1>" ++ list)

/-! ## Item detail (source lines 229-297) -/

/-- The booking-request form of `renderItem` (source lines 236-249). -/
def bookFormHtml (H : Host) (itemId : JVal) : String :=
  "
      <div class=\"card\" style=\"margin-top:1rem\">
        <h3>Request booking</h3>
        <form id=\"book-form\">
          <input type=\"hidden\" name=\"item_id\" value=\"" ++ escapeHtml H itemId ++ "\" />
          <label>Start date <input type=\"date\" name=\"start_date\" required /></label>
          <label>End date <input type=\"date\" name=\"end_date\" required /></label>
          <label>Notes <input type=\"text\" name=\"notes\" /></label>
          <p id=\"book-error\" class=\"error\" style=\"display:none\"></p>
          <p id=\"book-success\" class=\"success\" style=\"display:none\"></p>
          <button type=\"submit\">Request booking</button>
        </form>
      </div>
    "

/-- The login prompt of `renderItem` (source line 251). -/
def loginPrompt : String := "<p class=\"muted\">Log in to request a booking.</p>"

/-- The value `canBook = user && user.id !== item.owner_id`, as its truthiness;
`item.owner_id` is read only when `user` is truthy. -/
def canBook (user item : JVal) : Except JsError Bool :=
  if user.truthy then do
    let uid ← user.getProp "id"
    let owner ← item.getProp "owner_id"
    pure (!uid.strictEq owner)
  else pure false

/-- The variable `bookForm` of `renderItem` (source lines 234-252). -/
def bookForm (H : Host) (user item : JVal) : Except JsError String := do
  if (← canBook user item) then
    let id ← item.getProp "id"
    pure (bookFormHtml H id)
  else if !user.truthy then pure loginPrompt
  else pure ""

/-- The detail card of `renderItem` (source lines 254-264). -/
def itemDetailHtml (H : Host) (item : JVal) (form : String) : Except JsError String := do
  let title ← item.getProp "title"
  let description ← item.getProp "description"
  let daily_price ← item.getProp "daily_price"
  let security_deposit ← item.getProp "security_deposit"
  let location_text ← item.getProp "location_text"
  pure ("
    <a href=\"#home\" class=\"btn-secondary\" style=\"margin-bottom:1rem;display:inline-block\">← Back</a>
    <div class=\"card\">
      <h2>" ++ escapeHtml H title ++ "</h2>
      <p class=\"meta\">" ++ escapeHtml H (description.or (.str "—")) ++ "</p>
      <div class=\"detail-row\"><strong>Price</strong> $" ++ H.toFixed2 daily_price ++ " / day</div>
      <div class=\"detail-row\"><strong>Deposit</strong> $"
        ++ H.toFixed2 (security_deposit.or (.num "0")) ++ "</div>
      " ++ (if location_text.truthy then
              "<div class=\"detail-row\"><strong>Location</strong> "
                ++ escapeHtml H location_text ++ "</div>"
            else "") ++ "
    </div>
    " ++ form ++ "
  ")

/-- The function `renderItem`. -/
def renderItem (H : Host) (id : String) : Act String := do
  let item ← api H ("/items/" ++ id) Options.empty
  let user ← readUser H
  let can ← Act.ofExcept (canBook user item)
  let form ← Act.ofExcept (bookForm H user item)
  let html ← Act.ofExcept (itemDetailHtml H item form)
  if can then emit (.setTimeout .bookSubmit)
  pure html

/-! ## Renter bookings (source lines 299-326) -/

/-- The card of one booking in `renderBookings` (source lines 315-322). -/
def bookingCard (H : Host) (b : JVal) : Except JsError String := do
  let start_date ← b.getProp "start_date"
  let end_date ← b.getProp "end_date"
  let total_price ← b.getProp "total_price"
  let status ← b.getProp "status"
  let cls ← lowerOrEmpty H status
  pure ("
        <div class=\"card booking-item\">
          <div>
            <strong>Booking</strong> " ++ toStr H start_date ++ " → " ++ toStr H end_date ++ "
            <div class=\"meta\">Total $" ++ H.toFixed2 total_price
              ++ " · Status: <span class=\"status " ++ cls ++ "\">" ++ escapeHtml H status
              ++ "</span></div>
          </div>
        </div>
      ")

/-- The empty-state message of `renderBookings`. -/
def bookingsEmpty : String :=
  "<p class=\"empty\">No bookings yet. Browse items and request a booking.</p>"

/-- The function `renderBookings`. -/
def renderBookings (H : Host) (rerender : Act Unit) : Act String := do
  let user ← readUser H
  if !user.truthy then
    navigate rerender "login"
    pure redirecting
  else
    let data ← Act.tryCatch (api H "/bookings/me/renter" Options.empty)
      (fun _ => pure (.obj [("bookings", .arr [])]))
    let bookings := (← Act.ofExcept (data.getProp "bookings")).or (.arr [])
    let list ←
      if lengthTruthy bookings then Act.ofExcept (mapJoin (bookingCard H) bookings)
      else pure bookingsEmpty
    pure ("<h1 class=\"page-title\">My bookings</h1>" ++ list)

/-! ## Owner views (source lines 330-569) -/

/-- The card of one item in `renderMyItems` (source lines 350-360). -/
def myItemCard (H : Host) (i : JVal) : Except JsError String := do
  let title ← i.getProp "title"
  let description ← i.getProp "description"
  let daily_price ← i.getProp "daily_price"
  let id ← i.getProp "id"
  pure ("
        <div class=\"item-card\">
          <h3>" ++ escapeHtml H title ++ "</h3>
          <p class=\"meta\">" ++ escapeHtml H (description.or (.str "—")) ++ "</p>
          <p class=\"price\">$" ++ H.toFixed2 daily_price ++ " / day</p>
          <div style=\"margin-top:1rem;display:flex;gap:0.5rem\">
            <a href=\"#item/" ++ toStr H id ++ "\" class=\"btn btn-sm btn-secondary\">View</a>
            <a href=\"#items/" ++ toStr H id ++ "/edit\" class=\"btn btn-sm btn-primary\">Edit</a>
          </div>
        </div>
      ")

/-- The empty-state message of `renderMyItems`. -/
def myItemsEmpty : String := "<p class=\"empty\">You haven\x27t added any items yet.</p>"

/-- The function `renderMyItems`. -/
def renderMyItems (H : Host) (rerender : Act Unit) : Act String := do
  let user ← readUser H
  if !user.truthy then
    navigate rerender "login"
    pure redirecting
  else if notOwner user then
    pure (errorPanel "Only owners can view this page.")
  else
    let uid ← Act.ofExcept (user.getProp "id")
    let data ← Act.tryCatch
      (api H ("/items?owner_id=" ++ toStr H uid ++ "&limit=50") Options.empty)
      (fun _ => pure (.obj [("items", .arr [])]))
    let items := (← Act.ofExcept (data.getProp "items")).or (.arr [])
    let list ←
      if lengthTruthy items then do
        let cards ← Act.ofExcept (mapJoin (myItemCard H) items)
        pure ("<div class=\"items-grid\">" ++ cards ++ "</div>")
      else pure myItemsEmpty
    pure ("<h1 class=\"page-title\">My Items</h1>
    <a href=\"#items/new\" class=\"btn btn-primary\" style=\"margin-bottom:1rem\">Add New Item</a>
    " ++ list)

/-- The form of `renderAddItem` (source lines 379-394). -/
def addItemHtml : String := "
    <h1 class=\"page-title\">Add New Item</h1>
    <a href=\"#my-items\" class=\"btn-secondary\" style=\"margin-bottom:1rem;display:inline-block\">← Back to My Items</a>
    <div class=\"card\">
      <form id=\"add-item-form\">
        <label>Title <input type=\"text\" name=\"title\" required /></label>
        <label>Description <textarea name=\"description\" rows=\"3\"></textarea></label>
        <label>Daily Price ($) <input type=\"number\" name=\"daily_price\" step=\"0.01\" min=\"0\" required /></label>
        <label>Security Deposit ($) <input type=\"number\" name=\"security_deposit\" step=\"0.01\" min=\"0\" value=\"0\" /></label>
        <label>Location <input type=\"text\" name=\"location_text\" /></label>
        <p id=\"add-item-error\" class=\"error\" style=\"display:none\"></p>
        <p id=\"add-item-success\" class=\"success\" style=\"display:none\"></p>
        <button type=\"submit\" class=\"btn btn-primary\">Create Item</button>
      </form>
    </div>
  "

/-- The function `renderAddItem`. -/
def renderAddItem (H : Host) (rerender : Act Unit) : Act String := do
  let user ← readUser H
  if !user.truthy then
    navigate rerender "login"
    pure redirecting
  else if notOwner user then
    pure (errorPanel "Only owners can add items.")
  else
    emit (.setTimeout .addItemSubmit)
    pure addItemHtml

/-- The form of `renderEditItem` (source lines 447-462). -/
def editItemHtml (H : Host) (item : JVal) : Except JsError String := do
  let title ← item.getProp "title"
  let description ← item.getProp "description"
  let daily_price ← item.getProp "daily_price"
  let security_deposit ← item.getProp "security_deposit"
  let location_text ← item.getProp "location_text"
  pure ("
    <h1 class=\"page-title\">Edit Item</h1>
    <a href=\"#my-items\" class=\"btn-secondary\" style=\"margin-bottom:1rem;display:inline-block\">← Back to My Items</a>
    <div class=\"card\">
      <form id=\"edit-item-form\">
        <label>Title <input type=\"text\" name=\"title\" value=\"" ++ escapeHtml H title ++ "\" required /></label>
        <label>Description <textarea name=\"description\" rows=\"3\">"
          ++ escapeHtml H (description.or (.str "")) ++ "</textarea></label>
        <label>Daily Price ($) <input type=\"number\" name=\"daily_price\" step=\"0.01\" min=\"0\" value=\""
          ++ toStr H daily_price ++ "\" required /></label>
        <label>Security Deposit ($) <input type=\"number\" name=\"security_deposit\" step=\"0.01\" min=\"0\" value=\""
          ++ toStr H (security_deposit.or (.num "0")) ++ "\" /></label>
        <label>Location <input type=\"text\" name=\"location_text\" value=\""
          ++ escapeHtml H (location_text.or (.str "")) ++ "\" /></label>
        <p id=\"edit-item-error\" class=\"error\" style=\"display:none\"></p>
        <p id=\"edit-item-success\" class=\"success\" style=\"display:none\"></p>
        <button type=\"submit\" class=\"btn btn-primary\">Update Item</button>
      </form>
    </div>
  ")

/-- The function `renderEditItem`. -/
def renderEditItem (H : Host) (rerender : Act Unit) (id : String) : Act String := do
  let user ← readUser H
  if !user.truthy then
    navigate rerender "login"
    pure redirecting
  else if notOwner user then
    pure (errorPanel "Only owners can edit items.")
  else
    let fetched ← Act.tryCatch
      (do let item ← api H ("/items/" ++ id) Options.empty; pure (some item))
      (fun _ => pure none)
    match fetched with
    | none => pure (errorPanel "Item not found.")
    | some item =>
      let html ← Act.ofExcept (editItemHtml H item)
      emit (.setTimeout (.editItemSubmit id))
      pure html

/-- The `Approve` control of an owner booking card (source line 523). -/
def approveControl (H : Host) (status id : JVal) : String :=
  if status.isStr "REQUESTED" then
    "<button class=\"btn btn-sm btn-success\" data-approve=\"" ++ toStr H id ++ "\">Approve</button>"
  else ""

/-- The `Reject` control of an owner booking card (source line 524). -/
def rejectControl (H : Host) (status id : JVal) : String :=
  if status.isStr "REQUESTED" then
    "<button class=\"btn btn-sm btn-danger\" data-reject=\"" ++ toStr H id ++ "\">Reject</button>"
  else ""

/-- The `Mark Completed` control of an owner booking card (source line 525). -/
def completeControl (H : Host) (status id : JVal) : String :=
  if status.isStr "APPROVED" then
    "<button class=\"btn btn-sm btn-primary\" data-complete=\"" ++ toStr H id
      ++ "\">Mark Completed</button>"
  else ""

/-- The card of one booking in `renderOwnerBookings` (source lines 515-529). -/
def ownerBookingCard (H : Host) (b : JVal) : Except JsError String := do
  let id ← b.getProp "id"
  let shortId ← sliceVal08 id
  let start_date ← b.getProp "start_date"
  let end_date ← b.getProp "end_date"
  let total_price ← b.getProp "total_price"
  let status ← b.getProp "status"
  let cls ← lowerOrEmpty H status
  pure ("
        <div class=\"card booking-item\">
          <div>
            <strong>Booking #" ++ toStr H shortId ++ "</strong>
            <div class=\"meta\">" ++ toStr H start_date ++ " → " ++ toStr H end_date ++ "</div>
            <div class=\"meta\">Total: $" ++ H.toFixed2 total_price ++ "</div>
            <div class=\"meta\">Status: <span class=\"status " ++ cls ++ "\">"
              ++ escapeHtml H status ++ "</span></div>
            <div style=\"margin-top:1rem;display:flex;gap:0.5rem\">
              " ++ approveControl H status id ++ "
              " ++ rejectControl H status id ++ "
              " ++ completeControl H status id ++ "
            </div>
          </div>
        </div>
      ")

/-- The empty-state message of `renderOwnerBookings`. -/
def ownerBookingsEmpty : String := "<p class=\"empty\">No bookings for your items yet.</p>"

/-- The function `renderOwnerBookings`; the click handlers of source lines
532-566 are registered through `setTimeout`. -/
def renderOwnerBookings (H : Host) (rerender : Act Unit) : Act String := do
  let user ← readUser H
  if !user.truthy then
    navigate rerender "login"
    pure redirecting
  else if notOwner user then
    pure (errorPanel "Only owners can view this page.")
  else
    let data ← Act.tryCatch (api H "/bookings/me/owner" Options.empty)
      (fun _ => pure (.obj [("bookings", .arr [])]))
    let bookings := (← Act.ofExcept (data.getProp "bookings")).or (.arr [])
    let list ←
      if lengthTruthy bookings then Act.ofExcept (mapJoin (ownerBookingCard H) bookings)
      else pure ownerBookingsEmpty
    emit (.setTimeout .ownerBookingClicks)
    pure ("<h1 class=\"page-title\">Owner Bookings</h1>" ++ list)

/-- The click handler of an owner booking control (source lines 534-542, 545-553
and 556-564): the status request, then `render()` on success, `alert` on failure. -/
def transitionClick (H : Host) (rerender : Act Unit) (bookingId newStatus : String) : Act Unit :=
  Act.tryCatch
    (do
      let _ ← api H ("/bookings/" ++ bookingId ++ "/status?new_status=" ++ newStatus)
        ⟨some "PATCH", none, none⟩
      callRender rerender)
    (fun err => emit (.alert err.message))

/-- The click handler of an `Approve` button whose `data-approve` is `bookingId`. -/
def onApproveClick (H : Host) (rerender : Act Unit) (bookingId : String) : Act Unit :=
  transitionClick H rerender bookingId "APPROVED"

/-- The click handler of a `Reject` button whose `data-reject` is `bookingId`. -/
def onRejectClick (H : Host) (rerender : Act Unit) (bookingId : String) : Act Unit :=
  transitionClick H rerender bookingId "REJECTED"

/-- The click handler of a `Mark Completed` button whose `data-complete` is `bookingId`. -/
def onCompleteClick (H : Host) (rerender : Act Unit) (bookingId : String) : Act Unit :=
  transitionClick H rerender bookingId "COMPLETED"

/-! ## Messages (source lines 573-616) -/

/-- One entry of the `conversations` object. -/
structure Conversation where
  id : JVal
  lastMessage : JVal
  otherUserId : JVal

/-- Property names every plain object inherits from `Object.prototype`, all
with truthy values. -/
def objectPrototypeKeys : List String :=
  ["constructor", "__defineGetter__", "__defineSetter__", "hasOwnProperty",
   "__lookupGetter__", "__lookupSetter__", "isPrototypeOf", "propertyIsEnumerable",
   "toString", "valueOf", "__proto__", "toLocaleString"]

/-- The body of the `forEach` callback (source lines 591-598): `convs` holds the
own properties of `conversations` in insertion order, keyed by `ToString`. -/
def groupStep (H : Host) (user : JVal) (convs : List (String × Conversation)) (msg : JVal) :
    Except JsError (List (String × Conversation)) := do
  let convId ← msg.getProp "conversation_id"
  let key := toStr H convId
  if (convs.lookup key).isSome ∨ key ∈ objectPrototypeKeys then pure convs
  else
    let sender ← msg.getProp "sender_id"
    let uid ← user.getProp "id"
    let other ← if sender.strictEq uid then msg.getProp "receiver_id" else pure sender
    pure (convs ++ [(key, ⟨convId, msg, other⟩)])

/-- The loop `messages.forEach(...)` (source lines 589-599): only an array has `forEach`. -/
def groupMessages (H : Host) (user messages : JVal) :
    Except JsError (List (String × Conversation)) :=
  match messages with
  | .arr msgs => msgs.foldlM (groupStep H user) []
  | _ => .error (mkTypeError "forEach is not a function")

/-- The array index a property key denotes, if it is a canonical numeric string
below `2^32 - 1`. -/
def arrayIndex? (k : String) : Option Nat :=
  match k.data with
  | [] => none
  | c :: cs =>
    if (c :: cs).all Char.isDigit ∧ (c ≠ '0' ∨ cs = []) then
      let n := (c :: cs).foldl (fun a d => 10 * a + (d.toNat - 48)) 0
      if n < 4294967295 then some n else none
    else none

/-- The call `Object.values(o)`: integer-like keys in ascending order, then the
other keys in insertion order. -/
def objectValues {α : Type} (o : List (String × α)) : List α :=
  let indexed := o.filterMap (fun kv => (arrayIndex? kv.1).map (fun n => (n, kv.2)))
  let named := o.filter (fun kv => (arrayIndex? kv.1).isNone)
  (indexed.insertionSort (fun a b => a.1 ≤ b.1)).map Prod.snd ++ named.map Prod.snd

/-- The card of one conversation (source lines 602-608). -/
def conversationCard (H : Host) (c : Conversation) : Except JsError String := do
  let shortId ← sliceVal08 c.id
  let content ← c.lastMessage.getProp "content"
  let created_at ← c.lastMessage.getProp "created_at"
  pure ("
        <div class=\"card\" style=\"cursor:pointer\" onclick=\"window.location.hash=\x27#chat/"
          ++ toStr H c.id ++ "\x27\">
          <strong>Conversation " ++ toStr H shortId ++ "</strong>
          <p class=\"meta\">" ++ escapeHtml H (content.or (.str "")) ++ "</p>
          <div class=\"meta\">" ++ H.toLocaleString created_at ++ "</div>
        </div>
      ")

/-- The empty-state message of `renderMessages`. -/
def messagesEmpty : String := "<p class=\"empty\">No conversations yet.</p>"

/-- The function `renderMessages`. -/
def renderMessages (H : Host) (rerender : Act Unit) : Act String := do
  let user ← readUser H
  if !user.truthy then
    navigate rerender "login"
    pure redirecting
  else
    let data ← Act.tryCatch (api H "/chat/conversations?limit=50" Options.empty)
      (fun _ => pure (.obj [("messages", .arr [])]))
    let messages := (← Act.ofExcept (data.getProp "messages")).or (.arr [])
    let conversations ← Act.ofExcept (groupMessages H user messages)
    let convList ←
      if (objectValues conversations).isEmpty then pure messagesEmpty
      else Act.ofExcept (((objectValues conversations).mapM (conversationCard H)).map String.join)
    pure ("<h1 class=\"page-title\">Messages</h1>
    <div class=\"card\">
      <p>Real-time chat is available via WebSocket at /chat/ws/\x7bconversation_id\x7d</p>
    </div>
    " ++ convList)

/-! ## Reviews (source lines 620-694) -/

/-- The review form of `renderItemReviews` (source lines 633-645). -/
def reviewFormHtml (itemId : String) : String := "
      <div class=\"card\" style=\"margin-top:1rem\">
        <h3>Add a Review</h3>
        <form id=\"review-form\">
          <input type=\"hidden\" name=\"item_id\" value=\"" ++ itemId ++ "\" />
          <label>Rating (1-5) <input type=\"number\" name=\"rating\" min=\"1\" max=\"5\" required /></label>
          <label>Comment <textarea name=\"comment\" rows=\"3\"></textarea></label>
          <p id=\"review-error\" class=\"error\" style=\"display:none\"></p>
          <p id=\"review-success\" class=\"success\" style=\"display:none\"></p>
          <button type=\"submit\" class=\"btn btn-primary\">Submit Review</button>
        </form>
      </div>
    "

/-- The five stars of a review (source line 680). -/
def ratingStars (H : Host) (rating : JVal) : String :=
  String.join ((List.range 5).map (fun i =>
    "<span class=\"rating-star " ++ (if H.indexLess i rating then "" else "empty") ++ "\">★</span>"))

/-- The expression `r.author_id?.slice(0, 8) || 'unknown'` (source line 683). -/
def authorLabel (author_id : JVal) : Except JsError JVal :=
  match author_id with
  | .undefined => .ok (.str "unknown")
  | .null => .ok (.str "unknown")
  | v => (sliceVal08 v).map (fun short => short.or (.str "unknown"))

/-- The card of one review (source lines 677-685). -/
def reviewCard (H : Host) (r : JVal) : Except JsError String := do
  let rating ← r.getProp "rating"
  let comment ← r.getProp "comment"
  let author_id ← r.getProp "author_id"
  let author ← authorLabel author_id
  let created_at ← r.getProp "created_at"
  pure ("
        <div class=\"card\">
          <div class=\"rating\">
            " ++ ratingStars H rating ++ "
          </div>
          <p>" ++ escapeHtml H (comment.or (.str "")) ++ "</p>
          <div class=\"meta\">By user " ++ toStr H author ++ " on "
            ++ H.toLocaleDateString created_at ++ "</div>
        </div>
      ")

/-- The empty-state message of `renderItemReviews`. -/
def reviewsEmpty : String := "<p class=\"empty\">No reviews yet.</p>"

/-- The test `user && user.role === 'RENTER'` (source line 632). -/
def isRenter (user : JVal) : Bool :=
  user.truthy &&
    (match user.getProp "role" with
     | .ok role => role.isStr "RENTER"
     | .error _ => false)

/-- The function `renderItemReviews`. -/
def renderItemReviews (H : Host) (itemId : String) : Act String := do
  let data ← Act.tryCatch (api H ("/reviews/items/" ++ itemId) Options.empty)
    (fun _ => pure (.obj [("reviews", .arr [])]))
  let reviews := (← Act.ofExcept (data.getProp "reviews")).or (.arr [])
  let user ← readUser H
  let reviewForm ←
    if isRenter user then do
      emit (.setTimeout (.reviewSubmit itemId))
      pure (reviewFormHtml itemId)
    else pure ""
  let reviewList ←
    if lengthTruthy reviews then Act.ofExcept (mapJoin (reviewCard H) reviews)
    else pure reviewsEmpty
  pure ("
    <a href=\"#item/" ++ itemId ++ "\" class=\"btn-secondary\" style=\"margin-bottom:1rem;display:inline-block\">← Back to Item</a>
    <h1 class=\"page-title\">Reviews</h1>
    " ++ reviewForm ++ "
    " ++ reviewList ++ "
  ")

/-! ## Render loop (source lines 65-124) -/

/-- The navigation bar of `render` (source lines 72-86). -/
def navHtml (H : Host) (user : JVal) : String :=
  let nav := "<a href=\"#home\">Browse</a>"
  if user.truthy then
    let role := (user.getProp "role").toOption.getD .undefined
    let email := (user.getProp "email").toOption.getD .undefined
    let nav := nav ++ " <a href=\"#bookings\">My bookings</a>"
    let nav :=
      if role.isStr "OWNER" || role.isStr "ADMIN" then
        nav ++ " <a href=\"#my-items\">My Items</a>"
          ++ " <a href=\"#owner-bookings\">Owner Bookings</a>"
      else nav
    nav ++ " <a href=\"#messages\">Messages</a>"
      ++ " <span class=\"user\">" ++ escapeHtml H email ++ "</span>"
      ++ " <button type=\"button\" data-logout>Log out</button>"
  else
    nav ++ " <a href=\"#login\">Log in</a>" ++ " <a href=\"#register\">Register</a>"

/-- The call of the resolver that `dispatch` selected. -/
def runView (H : Host) (rerender : Act Unit) : View → Act String
  | .login => renderLogin
  | .register => renderRegister
  | .home => renderHome H
  | .item id => renderItem H id
  | .addItem => renderAddItem H rerender
  | .editItem id => renderEditItem H rerender id
  | .myItems => renderMyItems H rerender
  | .ownerBookings => renderOwnerBookings H rerender
  | .messages => renderMessages H rerender
  | .itemReviews itemId => renderItemReviews H itemId
  | .bookings => renderBookings H rerender

/-- Attaching the logout handler: `[data-logout]` exists exactly when a user is shown. -/
def attachLogout (user : JVal) : Act Unit :=
  if user.truthy then emit (.listen .logout) else pure ()

/-- The body of `render`, with the recursive call `render()` as `rerender`. -/
def renderBody (H : Host) (rerender : Act Unit) : Act Unit := do
  emit .render
  let w ← getWorld
  if !w.hasApp then pure ()
  else
    let route := getRoute w.hash
    let user := currentUser H w.storage
    paintChrome (navHtml H user)
    attachLogout user
    let main ← Act.tryCatch (runView H rerender (dispatch route))
      (fun e => pure (errorPanel (escapeHtml H (.str e.message))))
    setMain main
    attachLogout user

/-- The logout click handler that `render` attaches (source lines 92-95 and
120-123): `clearAuth()` then `navigate('home')`. -/
def onLogoutClick (rerender : Act Unit) : Act Unit := fun w =>
  navigate rerender "home" { w with storage := clearAuth w.storage }

/-- The function `render`: `fuel` bounds the depth of `render` calls nested
through `navigate`. -/
def render (H : Host) : Nat → Act Unit
  | 0 => fun _ => .stuck
  | fuel + 1 => renderBody H (render H fuel)

/-! ## Sample hosts and worlds for concrete evaluations -/

/-- A response with the given fields. -/
def sampleResponse (ok : Bool) (statusText : String) (json : Option JVal) : Response :=
  ⟨ok, statusText, json⟩

/-- A `JSON.parse` that knows the text `null` and one stored user text. -/
def sampleParse (userText : String) (user : JVal) (text : String) : Except JsError JVal :=
  if text = "null" then .ok .null
  else if text = userText then .ok user
  else .error ⟨"SyntaxError", "Unexpected token"⟩

/-- A host whose `fetch` always settles the same way and whose `JSON.parse`
is `sampleParse`. -/
def sampleHost (userText : String) (user : JVal) (reply : Except JsError Response) : Host where
  apiBase := ""
  jsonParse := sampleParse userText user
  jsonStringify := fun _ => userText
  fetch := fun _ _ => reply
  arrayToString := fun _ => ""
  htmlEncode := fun t => t
  toFixed2 := fun _ => "0.00"
  toLocaleString := fun _ => ""
  toLocaleDateString := fun _ => ""
  toLowerCase := fun t => t
  indexLess := fun _ _ => false

/-- A world with the given storage and hash, an `#app` element and nothing painted. -/
def sampleWorld (storage : Storage) (hash : String) : World :=
  ⟨storage, hash, true, "", "", []⟩

/-- The stored text of the sample renter. -/
def renterText : String := "renter"

/-- A user of role RENTER. -/
def renterUser : JVal := .obj [("id", .str "u1"), ("email", .str "r@x.org"), ("role", .str "RENTER")]

/-- The stored text of the sample owner. -/
def ownerText : String := "owner"

/-- A user of role OWNER. -/
def ownerUser : JVal := .obj [("id", .str "u2"), ("email", .str "o@x.org"), ("role", .str "OWNER")]

/-- A failure response `500 Internal Server Error` with a JSON `detail`. -/
def serverError : Response :=
  sampleResponse false "Internal Server Error" (some (.obj [("detail", .str "boom")]))

/-! ## The grouping of messages in the words of the specification -/

/-- A property read that yields `undefined` where the read would throw. -/
def JVal.field (v : JVal) (key : String) : JVal :=
  match v.getProp key with
  | .ok x => x
  | .error _ => .undefined

/-- The key a message is grouped under, in the claim's words: its
`conversation_id` (as a property key, that is, through `ToString`). -/
def expectedKey (H : Host) (msg : JVal) : String := toStr H (msg.field "conversation_id")

/-- The conversation a message stands for, in the claim's words: the message is
the preview, and the other participant is its `receiver_id` when its
`sender_id` equals the current user's id and its `sender_id` otherwise. -/
def expectedConversation (user msg : JVal) : Conversation :=
  ⟨msg.field "conversation_id", msg,
    if (msg.field "sender_id").strictEq (user.field "id") then msg.field "receiver_id"
    else msg.field "sender_id"⟩

/-! ## Sample items and messages -/

/-- An item owned by the sample owner `u2`. -/
def drillItem : JVal :=
  .obj [("id", .str "i1"), ("owner_id", .str "u2"), ("title", .str "Drill"),
        ("daily_price", .num "5")]

/-- A success response carrying `drillItem`. -/
def drillReply : Response := sampleResponse true "OK" (some drillItem)

/-- A message whose `conversation_id` is the name of an inherited property. -/
def constructorMessage : JVal :=
  .obj [("conversation_id", .str "constructor"), ("sender_id", .str "u9"),
        ("receiver_id", .str "u1"), ("content", .str "hello")]

/-- A success response carrying the single message `constructorMessage`. -/
def constructorReply : Response :=
  sampleResponse true "OK" (some (.obj [("messages", .arr [constructorMessage])]))

/-- A message of the ordinary conversation `c1`. -/
def plainMessage : JVal :=
  .obj [("conversation_id", .str "c1"), ("sender_id", .str "u1"),
        ("receiver_id", .str "u7"), ("content", .str "hi")]

/-! ## Occurrences of markup in rendered pages -/

/-- Nowhere in `xs` does an occurrence of `pat` start or begin to start: at every
position, the rest of `xs` neither is a prefix of `pat` nor has `pat` as a prefix. -/
def freeOf (pat : List Char) : List Char → Bool
  | [] => true
  | c :: cs => !(c :: cs).isPrefixOf pat && !pat.isPrefixOf (c :: cs) && freeOf pat cs

/-- The opening tag of the booking-request form (source line 239). -/
def bookFormMarker : String := "<form id=\"book-form\">"

/-- The host `sampleHost` with an HTML encoding that writes `&lt;` for `<`. -/
def encodingHost (userText : String) (user : JVal) (reply : Except JsError Response) : Host :=
  { sampleHost userText user reply with
    htmlEncode := fun t =>
      String.mk (t.data.flatMap (fun c => if c = '<' then "&lt;".data else [c])) }

/-- A booking whose status is neither `REQUESTED` nor `APPROVED` and holds a
double quote followed by a `data-approve` attribute. -/
def injectedBooking : JVal :=
  .obj [("id", .str "b1"), ("start_date", .str "2024-05-01"), ("end_date", .str "2024-05-03"),
        ("total_price", .num "30"), ("status", .str "x\" data-approve=\"b1")]

/-- A booking `b2` with the given status. -/
def sampleBooking (status : String) : JVal :=
  .obj [("id", .str "b2"), ("start_date", .str "2024-06-01"), ("end_date", .str "2024-06-02"),
        ("total_price", .num "12"), ("status", .str status)]

/-- The page `renderOwnerBookings` returns to the sample owner when the owner
bookings fetch answers with the single booking `b`. -/
def ownerPage (b : JVal) : Option String :=
  ((renderOwnerBookings
      (sampleHost ownerText ownerUser
        (.ok (sampleResponse true "OK" (some (.obj [("bookings", .arr [b])])))))
      (render
        (sampleHost ownerText ownerUser
          (.ok (sampleResponse true "OK" (some (.obj [("bookings", .arr [b])]))))) 1)).run
      (sampleWorld [(USER_KEY, ownerText)] "#owner-bookings")).value?

/-- A success response carrying the single booking `injectedBooking`. -/
def injectedReply : Response :=
  sampleResponse true "OK" (some (.obj [("bookings", .arr [injectedBooking])]))

/-! ## Predicates on runs -/

/-- The outcome is not `stuck` and its log extends the log of `w`. -/
def Res.Extends {α : Type} (r : Res α) (w : World) : Prop :=
  match r with
  | .ok _ w1 => ∃ ext, w1.log = w.log ++ ext
  | .throw _ w1 => ∃ ext, w1.log = w.log ++ ext
  | .stuck => False

/-- The action never runs out of fuel and only appends to the log. -/
structure Act.Safe {α : Type} (m : Act α) : Prop where
  extends_log : ∀ w, (m w).Extends w

/-- The action returns normally from every world, and only appends to the log. -/
structure Act.Total {α : Type} (m : Act α) : Prop where
  returns : ∀ w, ∃ a w1 ext, m w = .ok a w1 ∧ w1.log = w.log ++ ext

/-- The action is safe from every world whose hash is `#login`. -/
def Act.LoginSafe {α : Type} (m : Act α) : Prop :=
  ∀ w, w.hash = "#login" → (m w).Extends w

/-! ## Lemmas on header objects and storage -/

theorem StrObj.get_set_same (o : StrObj) (k v : String) :
    StrObj.get (StrObj.set o k v) k = some v := by
  induction o with
  | nil => simp [StrObj.set, StrObj.get, List.lookup]
  | cons kv rest ih =>
    obtain ⟨k1, v1⟩ := kv
    by_cases h : k1 = k
    · simp [StrObj.set, StrObj.get, List.lookup, h]
    · have hk : (k == k1) = false := by simpa using fun e => h e.symm
      simpa [StrObj.set, StrObj.get, List.lookup, h, hk] using ih

theorem StrObj.get_set_other (o : StrObj) (k v j : String) (hj : j ≠ k) :
    StrObj.get (StrObj.set o k v) j = StrObj.get o j := by
  induction o with
  | nil =>
    have hk : (j == k) = false := by simpa using hj
    simp [StrObj.set, StrObj.get, List.lookup, hk]
  | cons kv rest ih =>
    obtain ⟨k1, v1⟩ := kv
    by_cases h : k1 = k
    · subst h
      have hk : (j == k1) = false := by simpa using hj
      simp [StrObj.set, StrObj.get, List.lookup, hk]
    · by_cases hjk : j = k1
      · subst hjk
        simp [StrObj.set, StrObj.get, List.lookup, h]
      · have hk : (j == k1) = false := by simpa using hjk
        simpa [StrObj.set, StrObj.get, List.lookup, h, hk] using ih

theorem StrObj.get_spread_absent (extra base : StrObj) (k : String)
    (h : ∀ v, (k, v) ∉ extra) :
    StrObj.get (StrObj.spread base extra) k = StrObj.get base k := by
  induction extra generalizing base with
  | nil => simp [StrObj.spread]
  | cons kv rest ih =>
    obtain ⟨k1, v1⟩ := kv
    have hk : k ≠ k1 := by
      intro e
      exact h v1 (by simp [e])
    have hrest : ∀ v, (k, v) ∉ rest := fun v hv => h v (List.mem_cons_of_mem _ hv)
    have := ih (StrObj.set base k1 v1) hrest
    simp only [StrObj.spread, List.foldl_cons] at this ⊢
    rw [this, StrObj.get_set_other _ _ _ _ hk]

theorem StrObj.get_spread_last (pre post base : StrObj) (k v : String)
    (h : ∀ u, (k, u) ∉ post) :
    StrObj.get (StrObj.spread base (pre ++ (k, v) :: post)) k = some v := by
  have h1 : StrObj.spread base (pre ++ (k, v) :: post)
      = StrObj.spread (StrObj.set (StrObj.spread base pre) k v) post := by
    simp [StrObj.spread, List.foldl_append]
  rw [h1, StrObj.get_spread_absent _ _ _ h, StrObj.get_set_same]

theorem Storage.getItem_of_missing (s : Storage) (k : String) (h : ∀ v, (k, v) ∉ s) :
    s.getItem k = none := by
  induction s with
  | nil => rfl
  | cons kv rest ih =>
    obtain ⟨k1, v1⟩ := kv
    have hk : k ≠ k1 := by
      intro e
      exact h v1 (by simp [e])
    have hb : (k == k1) = false := by simpa using hk
    have hrest : ∀ v, (k, v) ∉ rest := fun v hv => h v (List.mem_cons_of_mem _ hv)
    simpa [Storage.getItem, List.lookup, hb] using ih hrest

/-! ## Lemmas on segments -/

theorem splitChars_no_sep (sep : Char) (cs : List Char) :
    ∀ seg ∈ splitChars sep cs, sep ∉ seg := by
  induction cs with
  | nil => simp [splitChars]
  | cons c rest ih =>
    by_cases hc : c = sep
    · simpa [splitChars, hc] using ih
    · cases hs : splitChars sep rest with
      | nil => simp [splitChars, hc, hs, Ne.symm hc]
      | cons seg segs =>
        rw [hs] at ih
        intro x hx
        simp only [splitChars, hc, if_false, hs, List.mem_cons] at hx
        rcases hx with hx | hx
        · subst hx
          have := ih seg (by simp)
          simp [Ne.symm hc, this]
        · exact ih x (by simp [hx])

theorem segments_no_slash (locationHash : String) :
    ∀ s ∈ segments locationHash, '/' ∉ s.data := by
  intro s hs
  simp only [segments, jsSplit, List.mem_filter, List.mem_map] at hs
  obtain ⟨⟨seg, hseg, rfl⟩, _⟩ := hs
  exact splitChars_no_sep '/' _ seg hseg

theorem breakAt_some (pat : List Char) (cs pre post : List Char)
    (h : breakAt pat cs = some (pre, post)) : cs = pre ++ pat ++ post := by
  induction cs generalizing pre with
  | nil =>
    by_cases hp : pat = []
    · simp [breakAt, hp] at h
      simp [h, hp]
    · simp [breakAt, hp] at h
  | cons c rest ih =>
    by_cases hpre : pat.isPrefixOf (c :: rest) = true
    · simp only [breakAt, hpre, if_true, Option.some.injEq, Prod.mk.injEq] at h
      obtain ⟨h1, h2⟩ := h
      subst h1 h2
      have hp : pat <+: (c :: rest) := List.isPrefixOf_iff_prefix.mp hpre
      obtain ⟨t, ht⟩ := hp
      rw [← ht]
      simp
    · simp only [breakAt, hpre] at h
      cases hb : breakAt pat rest with
      | none => simp [hb] at h
      | some pp =>
        obtain ⟨p1, p2⟩ := pp
        simp only [hb, Bool.false_eq_true, if_false, Option.some.injEq, Prod.mk.injEq] at h
        obtain ⟨h1, h2⟩ := h
        subst h1 h2
        simp [ih p1 hb]

theorem no_slash_not_endsWith_edit (id : String) (h : '/' ∉ id.data) :
    jsEndsWith id "/edit" = false := by
  by_contra hc
  have hs : "/edit".data <:+ id.data := by
    have : jsEndsWith id "/edit" = true := by simpa using hc
    exact List.isSuffixOf_iff_suffix.mp this
  exact h (hs.subset (by decide))

theorem no_slash_not_includes_reviews (id : String) (h : '/' ∉ id.data) :
    jsIncludes id "/reviews" = false := by
  cases hb : breakAt "/reviews".data id.data with
  | none => simp [jsIncludes, hb]
  | some pp =>
    obtain ⟨p1, p2⟩ := pp
    have := breakAt_some _ _ _ _ hb
    exact absurd (by rw [this]; simp) h


theorem getRoute_id_no_slash (locationHash s : String)
    (h : (getRoute locationHash).id = some s) : '/' ∉ s.data := by
  simp only [getRoute] at h
  split at h
  · have hm : s ∈ segments locationHash := by
      have := List.getElem?_eq_some_iff.mp h
      obtain ⟨hlt, he⟩ := this
      exact he ▸ List.getElem_mem _
    exact segments_no_slash locationHash s hm
  · simp at h

/-- For every location hash, `render` calls neither `renderEditItem` nor
`renderItemReviews`: the `id` of a route holds no slash. -/
theorem dispatch_never_edit_or_reviews (locationHash : String) :
    (∀ id, dispatch (getRoute locationHash) ≠ View.editItem id) ∧
      (∀ id, dispatch (getRoute locationHash) ≠ View.itemReviews id) := by
  have hid := getRoute_id_no_slash locationHash
  generalize getRoute locationHash = r at hid
  obtain ⟨path, id⟩ := r
  cases id with
  | none =>
    clear hid
    refine ⟨fun id => ?_, fun id => ?_⟩ <;>
      simp only [dispatch, truthyStr, Bool.false_eq_true, and_false, false_and, if_false] <;>
      repeat (first | exact fun h => View.noConfusion h | split)
  | some s =>
    have h1 := no_slash_not_endsWith_edit s (hid s rfl)
    have h2 := no_slash_not_includes_reviews s (hid s rfl)
    clear hid
    have hd : dispatch ⟨path, some s⟩ =
        (if path = "login" then View.login
         else if path = "register" then .register
         else if path = "home" then .home
         else if path = "item" ∧ truthyStr (some s) then .item s
         else if path = "items" ∧ some s = some "new" then .addItem
         else if path = "my-items" then .myItems
         else if path = "owner-bookings" then .ownerBookings
         else if path = "messages" then .messages
         else if path = "bookings" then .bookings
         else .home) := by
      unfold dispatch
      simp only [Option.getD_some]
      rw [h1, h2]
      simp only [Bool.false_eq_true, and_false, if_false]
    rw [hd]
    refine ⟨fun id => ?_, fun id => ?_⟩ <;>
      repeat (first | exact fun h => View.noConfusion h | split)

/-! ## Router: claims C1 and C2 -/

/-- C1 (as stated, refuted): the fragment `login/extra` is not one of the
navigable locations, yet `getRoute` and the dispatch of `render` select
`renderLogin`, not `renderHome`. -/
theorem getRoute_unrecognized_not_home :
    getRoute "#login/extra" = ⟨"login", some "extra"⟩ ∧
      dispatch (getRoute "#login/extra") = View.login ∧
      dispatch (getRoute "#login/extra") ≠ View.home := by
  decide

/-- C1 (amended): for every location hash whose first non-empty segment is none
of `login`, `register`, `item`, `items`, `my-items`, `owner-bookings`,
`messages`, `bookings` (the empty fragment included), and for the fragments
whose non-empty segments are `item` alone, `items` alone, or `items` and one
further segment other than `new`, the resolver `render` dispatches to is
`renderHome`. -/
theorem dispatch_unrecognized_home (locationHash : String)
    (h : (∀ p ∈ (segments locationHash).head?,
            p ∉ ["login", "register", "item", "items", "my-items", "owner-bookings",
                 "messages", "bookings"])
          ∨ segments locationHash = ["item"] ∨ segments locationHash = ["items"]
          ∨ ∃ x, segments locationHash = ["items", x] ∧ x ≠ "new") :
    dispatch (getRoute locationHash) = View.home := by
  rcases h with h | h | h | ⟨x, hx, hnew⟩
  · cases hs : segments locationHash with
    | nil => simp [getRoute, hs, dispatch, orStr, truthyStr]
    | cons p rest =>
      have hp := h p (by simp [hs])
      simp only [List.mem_cons, List.mem_singleton, not_or, List.not_mem_nil, or_false] at hp
      obtain ⟨h1, h2, h3, h4, h5, h6, h7, h8⟩ := hp
      by_cases he : p = ""
      · subst he
        simp [getRoute, hs, dispatch, orStr]
      · simp [getRoute, hs, dispatch, orStr, he, h1, h2, h3, h4, h5, h6, h7, h8]
  · simp [getRoute, h, dispatch, orStr, truthyStr]
  · simp [getRoute, h, dispatch, orStr, truthyStr]
  · have hmem : x ∈ segments locationHash := by simp [hx]
    have hne : x ≠ "" := by
      simp only [segments, List.mem_filter] at hmem
      simpa using hmem.2
    have h1 := no_slash_not_endsWith_edit x (segments_no_slash locationHash x hmem)
    simp [getRoute, hx, dispatch, orStr, truthyStr, hne, hnew, h1]

/-- C1 (amended), applied: the fragment `profile/42/x` resolves to `renderHome`. -/
theorem dispatch_unrecognized_home_witness :
    dispatch (getRoute "#profile/42/x") = View.home :=
  dispatch_unrecognized_home "#profile/42/x" (Or.inl (by decide))

/-- The design behind the counterexample of C1: when the first non-empty segment
of the hash is `login`, `register`, `my-items`, `owner-bookings`, `messages` or
`bookings`, `render` calls that view's resolver whatever segments follow. -/
theorem dispatch_by_first_segment (locationHash p : String) (rest : List String)
    (hs : segments locationHash = p :: rest) :
    (p = "login" → dispatch (getRoute locationHash) = View.login) ∧
    (p = "register" → dispatch (getRoute locationHash) = View.register) ∧
    (p = "my-items" → dispatch (getRoute locationHash) = View.myItems) ∧
    (p = "owner-bookings" → dispatch (getRoute locationHash) = View.ownerBookings) ∧
    (p = "messages" → dispatch (getRoute locationHash) = View.messages) ∧
    (p = "bookings" → dispatch (getRoute locationHash) = View.bookings) := by
  refine ⟨?_, ?_, ?_, ?_, ?_, ?_⟩ <;> intro hp <;> subst hp <;>
    simp [getRoute, hs, dispatch, orStr]

/-- C2 (the code at the failing inputs): the location `items/abc/edit` is
dispatched to `renderHome`, not to `renderEditItem`, and `item/abc/reviews` is
dispatched to `renderItem` with `abc`, not to `renderItemReviews`: `getRoute`
keeps a single segment as `id`, so the tests `endsWith('/edit')` and
`includes('/reviews')` of `render` see no slash. -/
theorem dispatch_edit_reviews_unreached :
    getRoute "#items/abc/edit" = ⟨"items", some "abc"⟩ ∧
      dispatch (getRoute "#items/abc/edit") = View.home ∧
      getRoute "#item/abc/reviews" = ⟨"item", some "abc"⟩ ∧
      dispatch (getRoute "#item/abc/reviews") = View.item "abc" := by
  decide

/-! ## API client: claims C8 and C9 -/

/-- C8 (as stated, refuted): a failure response whose body is `detail: ""` makes
`api` fail with the status text, not with the `detail` string. -/
theorem api_empty_detail_uses_statusText :
    ((api (sampleHost renterText renterUser
        (.ok (sampleResponse false "Bad Request" (some (.obj [("detail", .str "")])))))
        "/bookings" Options.empty).run (sampleWorld [] "#home")).error?
      = some (mkError "Bad Request") ∧ "Bad Request" ≠ "" := by
  decide

/-- C8 (amended): when `fetch` settles with a response, `api` returns the
parsed body on success (an empty object when the body is not JSON); on a
non-success status it throws an `Error` whose message is `Validation error` when
`detail` is a list, the `detail` string when that is a non-empty string, and the
status text when the body is not JSON, or is JSON that can be read and has no
`detail` or an empty one. -/
theorem api_result_policy (H : Host) (path : String) (options : Options) (w : World)
    (res : Response)
    (hf : H.fetch w.log (buildRequest H path options w.storage) = .ok res) :
    (res.ok = true →
      (api H path options).run w = .ok (res.json.getD (.obj []))
        { w with log := w.log ++ [Event.fetch (buildRequest H path options w.storage)] }) ∧
    (res.ok = false →
      (res.json = none → ((api H path options).run w).error? = some (mkError res.statusText)) ∧
      (∀ body detail, res.json = some body → body.getProp "detail" = .ok detail →
        (detail.isArray = true →
          ((api H path options).run w).error? = some (mkError "Validation error")) ∧
        (∀ s, detail = .str s → s ≠ "" →
          ((api H path options).run w).error? = some (mkError s)) ∧
        (detail = .undefined ∨ detail = .str "" →
          ((api H path options).run w).error? = some (mkError res.statusText)))) := by
  refine ⟨fun hok => ?_, fun hok => ⟨fun hj => ?_, fun body detail hj hd => ⟨fun ha => ?_, ?_, ?_⟩⟩⟩
  · simp [Act.run, api, hf, hok, responseData]
  · by_cases hs : res.statusText = "" <;>
      simp [Act.run, api, hf, hok, responseData, hj, JVal.getProp, List.lookup, errorMessage,
        JVal.isArray, JVal.or, JVal.truthy, toStr, Res.error?, hs]
  · simp [Act.run, api, hf, hok, responseData, hj, hd, errorMessage, ha, Res.error?]
  · intro s hs hne
    subst hs
    simp [Act.run, api, hf, hok, responseData, hj, hd, errorMessage, JVal.isArray, JVal.or,
      JVal.truthy, toStr, Res.error?, hne]
  · intro hu
    rcases hu with hu | hu <;> subst hu <;>
      simp [Act.run, api, hf, hok, responseData, hj, hd, errorMessage, JVal.isArray, JVal.or,
        JVal.truthy, toStr, Res.error?]

/-- C8 (amended), applied: a `500` response with `detail: "boom"` makes `api`
throw `Error("boom")`. -/
theorem api_result_policy_witness :
    ((api (sampleHost renterText renterUser (.ok serverError)) "/items" Options.empty).run
        (sampleWorld [] "#home")).error? = some (mkError "boom") :=
  ((api_result_policy (sampleHost renterText renterUser (.ok serverError)) "/items"
      Options.empty (sampleWorld [] "#home") serverError rfl).2 rfl).2
    (.obj [("detail", .str "boom")]) (.str "boom") rfl rfl |>.2.1 "boom" rfl (by decide)

/-- C9 (as stated, refuted): with no token in the store, a call whose options
carry their own `Authorization` header (the `/auth/me` call of the login
handler) goes out with that header. -/
theorem api_keeps_own_authorization :
    getToken ([] : Storage) = none ∧
    (((api (sampleHost renterText renterUser (.ok serverError)) "/auth/me"
        ⟨none, none, some [("Authorization", "Bearer abc")]⟩).run
        (sampleWorld [] "#login")).world?.map
      (fun w => (fetches w.log).map (fun r => r.headers.get "Authorization")))
      = some [some "Bearer abc"] := by
  decide

/-- C9 (amended): every call `api(path, options)` hands exactly one request to
`fetch`; when the store holds a non-empty token its `Authorization` header is
`Bearer ` followed by that token, whatever the options carry; when the store
holds no token or an empty one, the header is absent if the options carry no
`Authorization` header, and is the options' own (last) one otherwise. -/
theorem api_authorization_header (H : Host) (path : String) (options : Options) (w : World) :
    (((api H path options).run w).world?.map World.log
        = some (w.log ++ [Event.fetch (buildRequest H path options w.storage)])) ∧
    (∀ t, getToken w.storage = some t → t ≠ "" →
      (buildRequest H path options w.storage).headers.get "Authorization"
        = some ("Bearer " ++ t)) ∧
    (truthyStr (getToken w.storage) = false →
      ((∀ v, ("Authorization", v) ∉ options.headers.getD []) →
        (buildRequest H path options w.storage).headers.get "Authorization" = none) ∧
      (∀ pre post v, options.headers = some (pre ++ ("Authorization", v) :: post) →
        (∀ u, ("Authorization", u) ∉ post) →
        (buildRequest H path options w.storage).headers.get "Authorization" = some v)) := by
  refine ⟨?_, fun t ht hne => ?_, fun hno => ⟨fun habs => ?_, fun pre post v ho hpost => ?_⟩⟩
  · simp only [Act.run, api]
    cases H.fetch w.log (buildRequest H path options w.storage) with
    | error e => simp [Res.world?]
    | ok res =>
      cases hok : res.ok with
      | true => simp [Res.world?, hok]
      | false =>
        cases hd : (responseData res).getProp "detail" <;> simp [Res.world?, hok, hd]
  · simp [buildRequest, ht, truthyStr, hne, StrObj.get_set_same]
  · simp only [buildRequest, hno, Bool.false_eq_true, if_false]
    rw [StrObj.get_spread_absent _ _ _ habs]
    decide
  · simp only [buildRequest, hno, ho, Option.getD_some, Bool.false_eq_true, if_false]
    exact StrObj.get_spread_last pre post _ _ v hpost

/-- C9 (amended), applied: with the token `tok` stored, a call that carries its
own `Authorization` header goes out with `Bearer tok`. -/
theorem api_authorization_header_witness :
    (buildRequest (sampleHost renterText renterUser (.ok serverError)) "/auth/me"
        ⟨none, none, some [("Authorization", "Bearer abc")]⟩
        (sampleWorld [(TOKEN_KEY, "tok")] "#login").storage).headers.get "Authorization"
      = some "Bearer tok" :=
  (api_authorization_header (sampleHost renterText renterUser (.ok serverError)) "/auth/me"
      ⟨none, none, some [("Authorization", "Bearer abc")]⟩
      (sampleWorld [(TOKEN_KEY, "tok")] "#login")).2.1 "tok" (by decide) (by decide)

/-! ## Session store: claim C10 -/

/-- C10: for every state of local storage `getUser` returns without throwing,
and returns `null` when the user entry is missing, is the empty string, or is a
text `JSON.parse` rejects; `getToken` (a total function) returns `null` when
the token entry is missing.  The host is assumed to parse the text `null` to
`null`, as `JSON.parse` does. -/
theorem getUser_getToken_absent (H : Host) (hnull : H.jsonParse "null" = .ok .null)
    (s : Storage) :
    (∃ v, getUser H s = .ok v) ∧
    ((∀ v, (USER_KEY, v) ∉ s) → getUser H s = .ok .null) ∧
    (s.getItem USER_KEY = some "" → getUser H s = .ok .null) ∧
    (∀ t e, s.getItem USER_KEY = some t → H.jsonParse t = .error e →
      getUser H s = .ok .null) ∧
    ((∀ v, (TOKEN_KEY, v) ∉ s) → getToken s = none) := by
  refine ⟨?_, fun h => ?_, fun h => ?_, fun t e ht he => ?_, fun h => ?_⟩
  · unfold getUser
    cases H.jsonParse (orStr (s.getItem USER_KEY) "null") with
    | ok v => exact ⟨v, rfl⟩
    | error e => exact ⟨.null, rfl⟩
  · simp [getUser, Storage.getItem_of_missing s USER_KEY h, orStr, hnull]
  · simp [getUser, h, orStr, hnull]
  · by_cases h0 : t = ""
    · simp [getUser, ht, orStr, h0, hnull]
    · simp [getUser, ht, orStr, h0, he]
  · exact Storage.getItem_of_missing s TOKEN_KEY h

/-- C10, applied: a stored user text that `JSON.parse` rejects reads as `null`. -/
theorem getUser_getToken_absent_witness :
    getUser (sampleHost renterText renterUser (.ok serverError)) [(USER_KEY, "%oops")]
      = .ok .null :=
  (getUser_getToken_absent (sampleHost renterText renterUser (.ok serverError)) rfl
      [(USER_KEY, "%oops")]).2.2.2.1 "%oops" ⟨"SyntaxError", "Unexpected token"⟩ rfl rfl

/-! ## Runs never get stuck: closure lemmas -/

theorem fetches_append (a b : List Event) : fetches (a ++ b) = fetches a ++ fetches b := by
  induction a with
  | nil => rfl
  | cons e rest ih => cases e <;> simp [fetches, ih]

theorem renders_append (a b : List Event) : renders (a ++ b) = renders a + renders b := by
  induction a with
  | nil => simp [renders]
  | cons e rest ih =>
    cases e
    all_goals simp [renders, ih]
    omega

theorem safe_pure {α : Type} (a : α) : Act.Safe (pure a : Act α) :=
  ⟨fun _ => ⟨[], by simp⟩⟩

theorem safe_bind {α β : Type} {m : Act α} {f : α → Act β}
    (hm : Act.Safe m) (hf : ∀ a, Act.Safe (f a)) : Act.Safe (m >>= f) := by
  refine ⟨fun w => ?_⟩
  have h1 := hm.extends_log w
  show (Act.bind m f w).Extends w
  unfold Act.bind
  cases hmw : m w with
  | ok a w1 =>
    rw [hmw] at h1
    obtain ⟨e1, he1⟩ := h1
    have h2 := (hf a).extends_log w1
    simp only
    cases hfw : f a w1 with
    | ok b w2 =>
      rw [hfw] at h2
      obtain ⟨e2, he2⟩ := h2
      exact ⟨e1 ++ e2, by rw [he2, he1, List.append_assoc]⟩
    | throw e w2 =>
      rw [hfw] at h2
      obtain ⟨e2, he2⟩ := h2
      exact ⟨e1 ++ e2, by rw [he2, he1, List.append_assoc]⟩
    | stuck => rw [hfw] at h2; exact h2
  | throw e w1 => rw [hmw] at h1; exact h1
  | stuck => rw [hmw] at h1; exact h1

theorem safe_tryCatch {α : Type} {m : Act α} {h : JsError → Act α}
    (hm : Act.Safe m) (hh : ∀ e, Act.Safe (h e)) : Act.Safe (Act.tryCatch m h) := by
  refine ⟨fun w => ?_⟩
  have h1 := hm.extends_log w
  unfold Act.tryCatch
  cases hmw : m w with
  | ok a w1 => rw [hmw] at h1; exact h1
  | throw e w1 =>
    rw [hmw] at h1
    obtain ⟨e1, he1⟩ := h1
    have h2 := (hh e).extends_log w1
    simp only
    cases hfw : h e w1 with
    | ok b w2 =>
      rw [hfw] at h2
      obtain ⟨e2, he2⟩ := h2
      exact ⟨e1 ++ e2, by rw [he2, he1, List.append_assoc]⟩
    | throw e w2 =>
      rw [hfw] at h2
      obtain ⟨e2, he2⟩ := h2
      exact ⟨e1 ++ e2, by rw [he2, he1, List.append_assoc]⟩
    | stuck => rw [hfw] at h2; exact h2
  | stuck => rw [hmw] at h1; exact h1

theorem safe_ofExcept {α : Type} (x : Except JsError α) : Act.Safe (Act.ofExcept x) := by
  cases x with
  | ok a => exact ⟨fun _ => ⟨[], by simp⟩⟩
  | error e => exact ⟨fun _ => ⟨[], by simp⟩⟩

theorem safe_emit (e : Event) : Act.Safe (emit e) :=
  ⟨fun _ => ⟨[e], rfl⟩⟩

theorem safe_readUser (H : Host) : Act.Safe (readUser H) :=
  ⟨fun _ => ⟨[], by simp⟩⟩

theorem safe_api (H : Host) (path : String) (options : Options) :
    Act.Safe (api H path options) := by
  refine ⟨fun w => ?_⟩
  cases hf : H.fetch w.log (buildRequest H path options w.storage) with
  | error e => simp [RentAThing.api, hf, Res.Extends]
  | ok res =>
    cases hok : res.ok with
    | true => simp [RentAThing.api, hf, hok, Res.Extends]
    | false =>
      cases hd : (responseData res).getProp "detail" <;>
        simp [RentAThing.api, hf, hok, hd, Res.Extends]

theorem safe_navigate_login {r : Act Unit} (hr : Act.LoginSafe r) :
    Act.Safe (navigate r "login") := by
  refine ⟨fun w => ?_⟩
  have hh : assignedHash (orStr (some "login") "#") = "#login" := by decide
  have h1 := hr { w with hash := "#login", log := w.log ++ [Event.navigate "login"] } rfl
  simp only [navigate, callRender, hh]
  cases hrw : r { w with hash := "#login", log := w.log ++ [Event.navigate "login"] } with
  | ok a w1 =>
    rw [hrw] at h1
    obtain ⟨e1, he1⟩ := h1
    exact ⟨Event.navigate "login" :: e1, by simp [he1]⟩
  | throw e w1 =>
    rw [hrw] at h1
    obtain ⟨e1, he1⟩ := h1
    exact ⟨Event.navigate "login" :: e1, by simp [he1]⟩
  | stuck => rw [hrw] at h1; exact h1

theorem safe_of_total {α : Type} {m : Act α} (hm : Act.Total m) : Act.Safe m := by
  refine ⟨fun w => ?_⟩
  obtain ⟨a, w1, ext, h, hl⟩ := hm.returns w
  rw [h]
  exact ⟨ext, hl⟩

theorem total_pure {α : Type} (a : α) : Act.Total (pure a : Act α) :=
  ⟨fun w => ⟨a, w, [], rfl, by simp⟩⟩

theorem total_emit (e : Event) : Act.Total (emit e) :=
  ⟨fun _ => ⟨(), _, [e], rfl, rfl⟩⟩

theorem total_setMain (main : String) : Act.Total (setMain main) :=
  ⟨fun w => ⟨(), _, [], rfl, by simp⟩⟩

theorem total_paintChrome (nav : String) : Act.Total (paintChrome nav) :=
  ⟨fun w => ⟨(), _, [], rfl, by simp⟩⟩

theorem total_getWorld : Act.Total getWorld :=
  ⟨fun w0 => ⟨w0, w0, [], rfl, by simp⟩⟩

theorem total_attachLogout (user : JVal) : Act.Total (attachLogout user) := by
  unfold RentAThing.attachLogout
  split
  · exact total_emit _
  · exact total_pure _

theorem total_bind {α β : Type} {m : Act α} {f : α → Act β}
    (hm : Act.Total m) (hf : ∀ a, Act.Total (f a)) : Act.Total (m >>= f) := by
  refine ⟨fun w => ?_⟩
  obtain ⟨a, w1, e1, h1, hl1⟩ := hm.returns w
  obtain ⟨b, w2, e2, h2, hl2⟩ := (hf a).returns w1
  refine ⟨b, w2, e1 ++ e2, ?_, by rw [hl2, hl1, List.append_assoc]⟩
  show Act.bind m f w = _
  simp [Act.bind, h1, h2]

theorem total_tryCatch {α : Type} {m : Act α} {h : JsError → Act α}
    (hm : Act.Safe m) (hh : ∀ e, Act.Total (h e)) : Act.Total (Act.tryCatch m h) := by
  refine ⟨fun w => ?_⟩
  have h1 := hm.extends_log w
  unfold Act.tryCatch
  cases hmw : m w with
  | ok a w1 =>
    rw [hmw] at h1
    obtain ⟨e1, he1⟩ := h1
    exact ⟨a, w1, e1, rfl, he1⟩
  | throw e w1 =>
    rw [hmw] at h1
    obtain ⟨e1, he1⟩ := h1
    obtain ⟨b, w2, e2, h2, hl2⟩ := (hh e).returns w1
    exact ⟨b, w2, e1 ++ e2, h2, by rw [hl2, he1, List.append_assoc]⟩
  | stuck => rw [hmw] at h1; exact h1.elim

theorem total_callRender {r : Act Unit} (hr : Act.Safe r) : Act.Total (callRender r) := by
  refine ⟨fun w => ?_⟩
  have h1 := hr.extends_log w
  unfold RentAThing.callRender
  cases hrw : r w with
  | ok a w1 =>
    rw [hrw] at h1
    obtain ⟨e1, he1⟩ := h1
    exact ⟨(), w1, e1, rfl, he1⟩
  | throw e w1 =>
    rw [hrw] at h1
    obtain ⟨e1, he1⟩ := h1
    exact ⟨(), w1, e1, rfl, he1⟩
  | stuck => rw [hrw] at h1; exact h1.elim

/-! ## Runs never get stuck: the views and the render loop -/

theorem renderLogin_safe : Act.Safe renderLogin := by
  unfold renderLogin
  repeat (first
    | exact safe_pure _
    | exact safe_readUser _
    | exact safe_api _ _ _
    | exact safe_emit _
    | exact safe_ofExcept _
    | apply safe_bind
    | apply safe_tryCatch
    | intro _
    | split
    | dsimp only)

theorem renderRegister_safe : Act.Safe renderRegister := by
  unfold renderRegister
  repeat (first
    | exact safe_pure _
    | exact safe_readUser _
    | exact safe_api _ _ _
    | exact safe_emit _
    | exact safe_ofExcept _
    | apply safe_bind
    | apply safe_tryCatch
    | intro _
    | split
    | dsimp only)

theorem renderHome_safe (H : Host) : Act.Safe (renderHome H) := by
  unfold renderHome
  repeat (first
    | exact safe_pure _
    | exact safe_readUser _
    | exact safe_api _ _ _
    | exact safe_emit _
    | exact safe_ofExcept _
    | apply safe_bind
    | apply safe_tryCatch
    | intro _
    | split
    | dsimp only)

theorem renderItem_safe (H : Host) (id : String) : Act.Safe (renderItem H id) := by
  unfold renderItem
  repeat (first
    | exact safe_pure _
    | exact safe_readUser _
    | exact safe_api _ _ _
    | exact safe_emit _
    | exact safe_ofExcept _
    | apply safe_bind
    | apply safe_tryCatch
    | intro _
    | split
    | dsimp only)

theorem renderItemReviews_safe (H : Host) (itemId : String) :
    Act.Safe (renderItemReviews H itemId) := by
  unfold renderItemReviews
  repeat (first
    | exact safe_pure _
    | exact safe_readUser _
    | exact safe_api _ _ _
    | exact safe_emit _
    | exact safe_ofExcept _
    | apply safe_bind
    | apply safe_tryCatch
    | intro _
    | split
    | dsimp only)

theorem renderBookings_safe (H : Host) {r : Act Unit} (hr : Act.LoginSafe r) :
    Act.Safe (renderBookings H r) := by
  unfold renderBookings
  repeat (first
    | exact safe_navigate_login hr
    | exact safe_pure _
    | exact safe_readUser _
    | exact safe_api _ _ _
    | exact safe_emit _
    | exact safe_ofExcept _
    | apply safe_bind
    | apply safe_tryCatch
    | intro _
    | split
    | dsimp only)

theorem renderMyItems_safe (H : Host) {r : Act Unit} (hr : Act.LoginSafe r) :
    Act.Safe (renderMyItems H r) := by
  unfold renderMyItems
  repeat (first
    | exact safe_navigate_login hr
    | exact safe_pure _
    | exact safe_readUser _
    | exact safe_api _ _ _
    | exact safe_emit _
    | exact safe_ofExcept _
    | apply safe_bind
    | apply safe_tryCatch
    | intro _
    | split
    | dsimp only)

theorem renderAddItem_safe (H : Host) {r : Act Unit} (hr : Act.LoginSafe r) :
    Act.Safe (renderAddItem H r) := by
  unfold renderAddItem
  repeat (first
    | exact safe_navigate_login hr
    | exact safe_pure _
    | exact safe_readUser _
    | exact safe_api _ _ _
    | exact safe_emit _
    | exact safe_ofExcept _
    | apply safe_bind
    | apply safe_tryCatch
    | intro _
    | split
    | dsimp only)

theorem renderEditItem_safe (H : Host) {r : Act Unit} (hr : Act.LoginSafe r) (id : String) :
    Act.Safe (renderEditItem H r id) := by
  unfold renderEditItem
  repeat (first
    | exact safe_navigate_login hr
    | exact safe_pure _
    | exact safe_readUser _
    | exact safe_api _ _ _
    | exact safe_emit _
    | exact safe_ofExcept _
    | apply safe_bind
    | apply safe_tryCatch
    | intro _
    | split
    | dsimp only)

theorem renderOwnerBookings_safe (H : Host) {r : Act Unit} (hr : Act.LoginSafe r) :
    Act.Safe (renderOwnerBookings H r) := by
  unfold renderOwnerBookings
  repeat (first
    | exact safe_navigate_login hr
    | exact safe_pure _
    | exact safe_readUser _
    | exact safe_api _ _ _
    | exact safe_emit _
    | exact safe_ofExcept _
    | apply safe_bind
    | apply safe_tryCatch
    | intro _
    | split
    | dsimp only)

theorem renderMessages_safe (H : Host) {r : Act Unit} (hr : Act.LoginSafe r) :
    Act.Safe (renderMessages H r) := by
  unfold renderMessages
  repeat (first
    | exact safe_navigate_login hr
    | exact safe_pure _
    | exact safe_readUser _
    | exact safe_api _ _ _
    | exact safe_emit _
    | exact safe_ofExcept _
    | apply safe_bind
    | apply safe_tryCatch
    | intro _
    | split
    | dsimp only)

theorem runView_safe (H : Host) {r : Act Unit} (hr : Act.LoginSafe r) (v : View) :
    Act.Safe (runView H r v) := by
  cases v with
  | login => exact renderLogin_safe
  | register => exact renderRegister_safe
  | home => exact renderHome_safe H
  | item id => exact renderItem_safe H id
  | addItem => exact renderAddItem_safe H hr
  | editItem id => exact renderEditItem_safe H hr id
  | myItems => exact renderMyItems_safe H hr
  | ownerBookings => exact renderOwnerBookings_safe H hr
  | messages => exact renderMessages_safe H hr
  | itemReviews itemId => exact renderItemReviews_safe H itemId
  | bookings => exact renderBookings_safe H hr

theorem renderBody_total (H : Host) {r : Act Unit} (hr : Act.LoginSafe r) (w : World) :
    ∃ w2 ext, renderBody H r w = .ok () w2 ∧ w2.log = w.log ++ Event.render :: ext := by
  have key : ∀ f : Unit → Act Unit, (∀ u, Act.Total (f u)) →
      ∃ w2 ext, (emit Event.render >>= f) w = .ok () w2
        ∧ w2.log = w.log ++ Event.render :: ext := by
    intro f hf
    obtain ⟨a, w2, ext, h, hl⟩ := (hf ()).returns { w with log := w.log ++ [Event.render] }
    exact ⟨w2, ext, h, by simp [hl]⟩
  unfold renderBody
  refine key _ ?_
  intro u
  apply total_bind
  · exact total_getWorld
  intro w0
  split
  · exact total_pure _
  dsimp only
  apply total_bind
  · exact total_paintChrome _
  intro _
  apply total_bind
  · exact total_attachLogout _
  intro _
  apply total_bind
  · exact total_tryCatch (runView_safe H hr _) (fun _ => total_pure _)
  intro _
  apply total_bind
  · exact total_setMain _
  intro _
  exact total_attachLogout _

theorem render_at_login (H : Host) (fuel : Nat) (w : World) (hh : w.hash = "#login") :
    ∃ w1 ext, render H (fuel + 1) w = .ok () w1 ∧ w1.log = w.log ++ Event.render :: ext
      ∧ fetches ext = [] ∧ w1.hash = w.hash ∧ w1.storage = w.storage := by
  have hd : dispatch (getRoute "#login") = .login := by decide
  have hb : ∀ {α β : Type} (m : Act α) (f : α → Act β), (m >>= f) = Act.bind m f :=
    fun _ _ => rfl
  have hp : ∀ {α : Type} (a : α), (pure a : Act α) = Act.pure a := fun _ => rfl
  by_cases ha : w.hasApp = true
  · by_cases hu : (currentUser H w.storage).truthy = true
    · simp [render, renderBody, ha, hh, hd, runView, attachLogout, hu, hb, hp, getWorld,
        paintChrome, Act.bind, Act.tryCatch, renderLogin, emit, Act.pure, setMain, fetches]
    · simp [render, renderBody, ha, hh, hd, runView, attachLogout, hu, hb, hp, getWorld,
        paintChrome, Act.bind, Act.tryCatch, renderLogin, emit, Act.pure, setMain, fetches]
  · simp [render, renderBody, ha, hb, hp, getWorld, Act.bind, emit, Act.pure, fetches]

theorem render_loginSafe (H : Host) (fuel : Nat) : Act.LoginSafe (render H (fuel + 1)) := by
  intro w hh
  obtain ⟨w1, ext, h, hl, _⟩ := render_at_login H fuel w hh
  rw [h]
  exact ⟨_, hl⟩

theorem render_total (H : Host) (fuel : Nat) (w : World) :
    ∃ w2 ext, render H (fuel + 2) w = .ok () w2 ∧ w2.log = w.log ++ Event.render :: ext :=
  renderBody_total H (render_loginSafe H fuel) w

theorem render_safe (H : Host) (fuel : Nat) : Act.Safe (render H (fuel + 2)) := by
  refine ⟨fun w => ?_⟩
  obtain ⟨w2, ext, h, hl⟩ := render_total H fuel w
  rw [h]
  exact ⟨_, hl⟩

theorem navigate_login_run (H : Host) (fuel : Nat) (w : World) :
    ∃ w1, navigate (render H (fuel + 1)) "login" w = .ok () w1 ∧ w1.hash = "#login"
      ∧ w1.storage = w.storage ∧ fetches w1.log = fetches w.log
      ∧ Event.navigate "login" ∈ w1.log := by
  have hh : assignedHash (orStr (some "login") "#") = "#login" := by decide
  obtain ⟨w1, ext, h, hl, hf, hhash, hst⟩ := render_at_login H fuel
    { w with hash := "#login", log := w.log ++ [Event.navigate "login"] } rfl
  refine ⟨w1, ?_, hhash, hst, ?_, ?_⟩
  · simp [navigate, callRender, hh, h]
  · simp [hl, fetches_append, fetches, hf]
  · simp [hl]

/-! ## Owner bookings: claims C3 and C4 -/

/-- The three control slots of the owner booking card follow the status alone:
`Approve` and `Reject` and no `Mark Completed` when the status is `REQUESTED`;
`Mark Completed` alone when it is `APPROVED`; all three empty for any other
status. -/
theorem owner_controls_by_status (H : Host) (status id : JVal) :
    (status.isStr "REQUESTED" = true →
      approveControl H status id
          = "<button class=\"btn btn-sm btn-success\" data-approve=\"" ++ toStr H id
              ++ "\">Approve</button>" ∧
        rejectControl H status id
          = "<button class=\"btn btn-sm btn-danger\" data-reject=\"" ++ toStr H id
              ++ "\">Reject</button>" ∧
        completeControl H status id = "") ∧
    (status.isStr "APPROVED" = true →
      approveControl H status id = "" ∧ rejectControl H status id = "" ∧
        completeControl H status id
          = "<button class=\"btn btn-sm btn-primary\" data-complete=\"" ++ toStr H id
              ++ "\">Mark Completed</button>") ∧
    (status.isStr "REQUESTED" = false → status.isStr "APPROVED" = false →
      approveControl H status id = "" ∧ rejectControl H status id = "" ∧
        completeControl H status id = "") := by
  refine ⟨fun h => ?_, fun h => ?_, fun h1 h2 => ?_⟩
  · have h2 : status.isStr "APPROVED" = false := by
      cases status <;> simp_all [JVal.isStr]
    simp [approveControl, rejectControl, completeControl, h, h2]
  · have h2 : status.isStr "REQUESTED" = false := by
      cases status <;> simp_all [JVal.isStr]
    simp [approveControl, rejectControl, completeControl, h, h2]
  · simp [approveControl, rejectControl, completeControl, h1, h2]

/-- The control slots of a `COMPLETED` booking are empty. -/
theorem owner_controls_by_status_witness :
    approveControl (sampleHost ownerText ownerUser (.ok serverError)) (.str "COMPLETED")
        (.str "b1") = "" ∧
      rejectControl (sampleHost ownerText ownerUser (.ok serverError)) (.str "COMPLETED")
        (.str "b1") = "" ∧
      completeControl (sampleHost ownerText ownerUser (.ok serverError)) (.str "COMPLETED")
        (.str "b1") = "" :=
  (owner_controls_by_status (sampleHost ownerText ownerUser (.ok serverError))
      (.str "COMPLETED") (.str "b1")).2.2 (by decide) (by decide)

set_option maxRecDepth 100000 in
/-- C3 (the code at the failing input): the status `x" data-approve="b1` is
neither `REQUESTED` nor `APPROVED` and the three control slots are empty, yet
the page `renderOwnerBookings` returns for that booking holds an element with
the attribute `data-approve="b1"`: the status is copied unescaped into the
`class` attribute of the status label. -/
theorem ownerBookingCard_status_injects_control :
    JVal.isStr (.str "x\" data-approve=\"b1") "REQUESTED" = false ∧
    JVal.isStr (.str "x\" data-approve=\"b1") "APPROVED" = false ∧
    approveControl (sampleHost ownerText ownerUser (.ok injectedReply))
        (.str "x\" data-approve=\"b1") (.str "b1") = "" ∧
    rejectControl (sampleHost ownerText ownerUser (.ok injectedReply))
        (.str "x\" data-approve=\"b1") (.str "b1") = "" ∧
    completeControl (sampleHost ownerText ownerUser (.ok injectedReply))
        (.str "x\" data-approve=\"b1") (.str "b1") = "" ∧
    ((renderOwnerBookings (sampleHost ownerText ownerUser (.ok injectedReply))
        (render (sampleHost ownerText ownerUser (.ok injectedReply)) 1)).run
        (sampleWorld [(USER_KEY, ownerText)] "#owner-bookings")).value?.map
      (fun html => jsIncludes html "<span class=\"status x\" data-approve=\"b1\">")
      = some true := by
  decide

set_option maxRecDepth 100000 in
/-- The scenario of the specification on the rendered page: a `REQUESTED`
booking shows `Approve` and `Reject` and no `Mark Completed`; once `APPROVED` it
shows `Mark Completed` alone; a `COMPLETED` booking shows none of the three. -/
theorem ownerPage_sample_controls :
    (ownerPage (sampleBooking "REQUESTED")).map (fun html =>
        (jsIncludes html "data-approve=\"b2\">Approve</button>",
         jsIncludes html "data-reject=\"b2\">Reject</button>",
         jsIncludes html "data-complete=")) = some (true, true, false) ∧
    (ownerPage (sampleBooking "APPROVED")).map (fun html =>
        (jsIncludes html "data-approve=", jsIncludes html "data-reject=",
         jsIncludes html "data-complete=\"b2\">Mark Completed</button>"))
      = some (false, false, true) ∧
    (ownerPage (sampleBooking "COMPLETED")).map (fun html =>
        (jsIncludes html "data-approve=", jsIncludes html "data-reject=",
         jsIncludes html "data-complete=")) = some (false, false, false) := by
  decide

/-- C4 (as stated, refuted): when the status request fails, the `Approve` handler
shows the message with `alert` and does not call `render`. -/
theorem approve_failure_no_rerender :
    ((onApproveClick (sampleHost ownerText ownerUser (.ok serverError))
        (render (sampleHost ownerText ownerUser (.ok serverError)) 3) "b1").run
        (sampleWorld [(USER_KEY, ownerText)] "#owner-bookings")).world?.map
      (fun w => (renders w.log, w.log.getLast?))
      = some (0, some (Event.alert "boom")) := by
  decide

/-- C4 (amended): for each of the three click handlers of the owner bookings
view, when the status request succeeds `render` is run again (the handler
returns, and the first event after the request is a `render` entry); when the
request fails the error message is shown with `alert` and nothing else
happens: `render` is not run. -/
theorem transition_click_rerender (H : Host) (fuel : Nat) (bookingId : String) (w : World) :
    ∀ p ∈ [(onApproveClick H (render H (fuel + 2)) bookingId, "APPROVED"),
           (onRejectClick H (render H (fuel + 2)) bookingId, "REJECTED"),
           (onCompleteClick H (render H (fuel + 2)) bookingId, "COMPLETED")],
      (∀ data w1,
        api H ("/bookings/" ++ bookingId ++ "/status?new_status=" ++ p.2)
            ⟨some "PATCH", none, none⟩ w = .ok data w1 →
        ∃ w2 ext, p.1.run w = .ok () w2 ∧ w2.log = w1.log ++ Event.render :: ext) ∧
      (∀ e w1,
        api H ("/bookings/" ++ bookingId ++ "/status?new_status=" ++ p.2)
            ⟨some "PATCH", none, none⟩ w = .throw e w1 →
        p.1.run w = .ok () { w1 with log := w1.log ++ [Event.alert e.message] }) := by
  have hb : ∀ {α β : Type} (m : Act α) (f : α → Act β), (m >>= f) = Act.bind m f :=
    fun _ _ => rfl
  have key : ∀ newStatus : String,
      (∀ data w1,
        api H ("/bookings/" ++ bookingId ++ "/status?new_status=" ++ newStatus)
            ⟨some "PATCH", none, none⟩ w = .ok data w1 →
        ∃ w2 ext, (transitionClick H (render H (fuel + 2)) bookingId newStatus).run w
            = .ok () w2 ∧ w2.log = w1.log ++ Event.render :: ext) ∧
      (∀ e w1,
        api H ("/bookings/" ++ bookingId ++ "/status?new_status=" ++ newStatus)
            ⟨some "PATCH", none, none⟩ w = .throw e w1 →
        (transitionClick H (render H (fuel + 2)) bookingId newStatus).run w
          = .ok () { w1 with log := w1.log ++ [Event.alert e.message] }) := by
    intro newStatus
    refine ⟨fun data w1 h => ?_, fun e w1 h => ?_⟩
    · obtain ⟨w2, ext, hr, hl⟩ := render_total H fuel w1
      exact ⟨w2, ext, by simp [Act.run, transitionClick, Act.tryCatch, hb, Act.bind, h,
        callRender, hr], hl⟩
    · simp [Act.run, transitionClick, Act.tryCatch, hb, Act.bind, h, emit]
  intro p hp
  simp only [List.mem_cons, List.mem_singleton, List.not_mem_nil, or_false] at hp
  rcases hp with hp | hp | hp <;> subst hp
  · exact key "APPROVED"
  · exact key "REJECTED"
  · exact key "COMPLETED"

/-- C4 (amended), applied: a failing `Mark Completed` request ends with the
`alert` of its message. -/
theorem transition_click_rerender_witness :
    (onCompleteClick (sampleHost ownerText ownerUser (.ok serverError))
        (render (sampleHost ownerText ownerUser (.ok serverError)) 2) "b1").run
        (sampleWorld [(USER_KEY, ownerText)] "#owner-bookings")
      = .ok ()
          { sampleWorld [(USER_KEY, ownerText)] "#owner-bookings" with
            log := [Event.fetch (buildRequest (sampleHost ownerText ownerUser (.ok serverError))
                      "/bookings/b1/status?new_status=COMPLETED" ⟨some "PATCH", none, none⟩
                      [(USER_KEY, ownerText)])] ++ [Event.alert "boom"] } :=
  ((transition_click_rerender (sampleHost ownerText ownerUser (.ok serverError)) 0 "b1"
      (sampleWorld [(USER_KEY, ownerText)] "#owner-bookings")
      (onCompleteClick (sampleHost ownerText ownerUser (.ok serverError))
        (render (sampleHost ownerText ownerUser (.ok serverError)) 2) "b1", "COMPLETED")
      (by simp)).2 (mkError "boom") _ rfl)

/-! ## Session gate and role gate: claims C5 and C6 -/

/-- C5: when the session store holds no user, each of the six gated resolvers
calls `navigate('login')`, returns the `Redirecting...` placeholder, leaves the
location at `#login`, and the run (the nested `render` of the login view
included) makes no `fetch` call. -/
theorem gated_redirects_without_fetch (H : Host) (fuel : Nat) (id : String) (w : World)
    (hno : (currentUser H w.storage).truthy = false) :
    ∀ m ∈ [renderBookings H (render H (fuel + 1)), renderMyItems H (render H (fuel + 1)),
           renderAddItem H (render H (fuel + 1)), renderEditItem H (render H (fuel + 1)) id,
           renderOwnerBookings H (render H (fuel + 1)), renderMessages H (render H (fuel + 1))],
      ∃ w1, m.run w = .ok redirecting w1 ∧ Event.navigate "login" ∈ w1.log ∧
        w1.hash = "#login" ∧ fetches w1.log = fetches w.log := by
  have hb : ∀ {α β : Type} (m : Act α) (f : α → Act β), (m >>= f) = Act.bind m f :=
    fun _ _ => rfl
  have hp : ∀ {α : Type} (a : α), (pure a : Act α) = Act.pure a := fun _ => rfl
  obtain ⟨w1, hn, hh, _, hf, hm⟩ := navigate_login_run H fuel w
  intro m hmem
  simp only [List.mem_cons, List.mem_singleton, List.not_mem_nil, or_false] at hmem
  refine ⟨w1, ?_, hm, hh, hf⟩
  rcases hmem with h | h | h | h | h | h <;> subst h
  · simp [Act.run, renderBookings, hb, hp, Act.bind, Act.pure, readUser, hno, hn]
  · simp [Act.run, renderMyItems, hb, hp, Act.bind, Act.pure, readUser, hno, hn]
  · simp [Act.run, renderAddItem, hb, hp, Act.bind, Act.pure, readUser, hno, hn]
  · simp [Act.run, renderEditItem, hb, hp, Act.bind, Act.pure, readUser, hno, hn]
  · simp [Act.run, renderOwnerBookings, hb, hp, Act.bind, Act.pure, readUser, hno, hn]
  · simp [Act.run, renderMessages, hb, hp, Act.bind, Act.pure, readUser, hno, hn]

/-- C5, applied: with empty storage, `renderOwnerBookings` redirects and no
request goes out. -/
theorem gated_redirects_without_fetch_witness :
    ∃ w1, (renderOwnerBookings (sampleHost ownerText ownerUser (.ok serverError))
        (render (sampleHost ownerText ownerUser (.ok serverError)) 1)).run
        (sampleWorld [] "#owner-bookings") = .ok redirecting w1 ∧
      Event.navigate "login" ∈ w1.log ∧ w1.hash = "#login" ∧
      fetches w1.log = fetches (sampleWorld [] "#owner-bookings").log :=
  gated_redirects_without_fetch (sampleHost ownerText ownerUser (.ok serverError)) 0 "i1"
    (sampleWorld [] "#owner-bookings") (by decide) _ (by simp)

/-- C6: when the session user has role `RENTER`, each of the four owner-only
resolvers returns its static "not authorized" panel and leaves the world as it
found it: no `fetch`, no `navigate`, no handler, whatever `render` would do. -/
theorem renter_gets_not_authorized (H : Host) (rerender : Act Unit) (id : String) (w : World)
    (hrole : (currentUser H w.storage).getProp "role" = .ok (.str "RENTER")) :
    (renderMyItems H rerender).run w = .ok (errorPanel "Only owners can view this page.") w ∧
    (renderAddItem H rerender).run w = .ok (errorPanel "Only owners can add items.") w ∧
    (renderEditItem H rerender id).run w = .ok (errorPanel "Only owners can edit items.") w ∧
    (renderOwnerBookings H rerender).run w
      = .ok (errorPanel "Only owners can view this page.") w := by
  have hb : ∀ {α β : Type} (m : Act α) (f : α → Act β), (m >>= f) = Act.bind m f :=
    fun _ _ => rfl
  have hp : ∀ {α : Type} (a : α), (pure a : Act α) = Act.pure a := fun _ => rfl
  have ht : (currentUser H w.storage).truthy = true := by
    cases hu : currentUser H w.storage <;> simp_all [JVal.getProp, JVal.truthy]
  have hn : notOwner (currentUser H w.storage) = true := by
    simp [notOwner, hrole, JVal.isStr]
  refine ⟨?_, ?_, ?_, ?_⟩
  · simp [Act.run, renderMyItems, hb, hp, Act.bind, Act.pure, readUser, ht, hn]
  · simp [Act.run, renderAddItem, hb, hp, Act.bind, Act.pure, readUser, ht, hn]
  · simp [Act.run, renderEditItem, hb, hp, Act.bind, Act.pure, readUser, ht, hn]
  · simp [Act.run, renderOwnerBookings, hb, hp, Act.bind, Act.pure, readUser, ht, hn]

/-- C6, applied: the sample renter asking for the edit form of item `i1` gets
the panel and the world is unchanged. -/
theorem renter_gets_not_authorized_witness :
    (renderEditItem (sampleHost renterText renterUser (.ok serverError))
        (render (sampleHost renterText renterUser (.ok serverError)) 1) "i1").run
        (sampleWorld [(USER_KEY, renterText)] "#items/i1/edit")
      = .ok (errorPanel "Only owners can edit items.")
          (sampleWorld [(USER_KEY, renterText)] "#items/i1/edit") :=
  (renter_gets_not_authorized (sampleHost renterText renterUser (.ok serverError))
      (render (sampleHost renterText renterUser (.ok serverError)) 1) "i1"
      (sampleWorld [(USER_KEY, renterText)] "#items/i1/edit") rfl).2.2.1

/-! ## List fetch failures: claim C7 -/

/-- C7 (the code at the failing input): when the list fetch of `renderHome`
fails, `renderHome` throws, and `render` paints the generic error panel with the
message instead of the empty-state message of the listings view. -/
theorem renderHome_fetch_failure_throws :
    ((renderHome (sampleHost renterText renterUser (.ok serverError))).run
        (sampleWorld [] "#home")).error? = some (mkError "boom") ∧
    ((render (sampleHost renterText renterUser (.ok serverError)) 2).run
        (sampleWorld [] "#home")).world?.map World.main = some (errorPanel "boom") ∧
    errorPanel "boom" ≠ "<h1 class=\"page-title\">Browse items</h1>" ++ homeEmpty := by
  decide

/-- Every failure of the list fetch of `renderHome` is thrown on to the caller. -/
theorem renderHome_propagates (H : Host) (w w1 : World) (e : JsError)
    (h : api H "/items?limit=50" Options.empty w = .throw e w1) :
    (renderHome H).run w = .throw e w1 := by
  have hb : ∀ {α β : Type} (m : Act α) (f : α → Act β), (m >>= f) = Act.bind m f :=
    fun _ _ => rfl
  simp [Act.run, renderHome, hb, Act.bind, h]

/-- The other five list-producing resolvers catch a failure of their list fetch
and return their empty-state message. -/
theorem sibling_list_fetch_failure_empty_state (H : Host) (rerender : Act Unit)
    (itemId : String) (w w1 : World) (e : JsError)
    (hu : (currentUser H w.storage).truthy = true) :
    (api H "/bookings/me/renter" Options.empty w = .throw e w1 →
      (renderBookings H rerender).run w
        = .ok ("<h1 class=\"page-title\">My bookings</h1>" ++ bookingsEmpty) w1) ∧
    (api H "/chat/conversations?limit=50" Options.empty w = .throw e w1 →
      (renderMessages H rerender).run w
        = .ok ("<h1 class=\"page-title\">Messages</h1>
    <div class=\"card\">
      <p>Real-time chat is available via WebSocket at /chat/ws/\x7bconversation_id\x7d</p>
    </div>
    " ++ messagesEmpty) w1) ∧
    (notOwner (currentUser H w.storage) = false →
      api H "/bookings/me/owner" Options.empty w = .throw e w1 →
      (renderOwnerBookings H rerender).run w
        = .ok ("<h1 class=\"page-title\">Owner Bookings</h1>" ++ ownerBookingsEmpty)
            { w1 with log := w1.log ++ [Event.setTimeout .ownerBookingClicks] }) ∧
    (notOwner (currentUser H w.storage) = false →
      (∀ uid, (currentUser H w.storage).getProp "id" = .ok uid →
        api H ("/items?owner_id=" ++ toStr H uid ++ "&limit=50") Options.empty w
          = .throw e w1) →
      (renderMyItems H rerender).run w
        = .ok ("<h1 class=\"page-title\">My Items</h1>
    <a href=\"#items/new\" class=\"btn btn-primary\" style=\"margin-bottom:1rem\">Add New Item</a>
    " ++ myItemsEmpty) w1) ∧
    (api H ("/reviews/items/" ++ itemId) Options.empty w = .throw e w1 →
      ∃ form w2, (renderItemReviews H itemId).run w
        = .ok ("
    <a href=\"#item/" ++ itemId ++ "\" class=\"btn-secondary\" style=\"margin-bottom:1rem;display:inline-block\">← Back to Item</a>
    <h1 class=\"page-title\">Reviews</h1>
    " ++ form ++ "
    " ++ reviewsEmpty ++ "
  ") w2) := by
  have hb : ∀ {α β : Type} (m : Act α) (f : α → Act β), (m >>= f) = Act.bind m f :=
    fun _ _ => rfl
  have hp : ∀ {α : Type} (a : α), (pure a : Act α) = Act.pure a := fun _ => rfl
  have hpe : ∀ {α : Type} (a : α), (pure a : Except JsError α) = .ok a := fun _ => rfl
  refine ⟨fun h => ?_, fun h => ?_, fun hn h => ?_, fun hn h => ?_, fun h => ?_⟩
  · simp only [Act.run, renderBookings, hb, hp, Act.bind, readUser, hu]
    simp [Act.bind, Act.pure, Act.tryCatch, h, JVal.getProp, List.lookup, Act.ofExcept,
      JVal.or, JVal.truthy, lengthTruthy]
  · simp only [Act.run, renderMessages, hb, hp, Act.bind, readUser, hu]
    simp [Act.bind, Act.pure, Act.tryCatch, h, JVal.getProp, List.lookup, Act.ofExcept,
      JVal.or, JVal.truthy, groupMessages, objectValues, List.foldlM, hpe]
  · simp only [Act.run, renderOwnerBookings, hb, hp, Act.bind, readUser, hu, hn]
    simp [Act.bind, Act.pure, Act.tryCatch, h, JVal.getProp, List.lookup, Act.ofExcept,
      JVal.or, JVal.truthy, lengthTruthy, emit]
  · obtain ⟨uid, hid⟩ : ∃ uid, (currentUser H w.storage).getProp "id" = .ok uid := by
      cases hc : currentUser H w.storage <;> simp_all [JVal.getProp, JVal.truthy]
    have h2 := h uid hid
    simp only [Act.run, renderMyItems, hb, hp, Act.bind, readUser, hu, hn, hid, Act.ofExcept,
      Act.pure]
    simp [Act.bind, Act.pure, Act.tryCatch, h2, JVal.getProp, List.lookup, Act.ofExcept,
      JVal.or, JVal.truthy, lengthTruthy]
  · by_cases hr : isRenter (currentUser H w1.storage) = true
    · refine ⟨reviewFormHtml itemId,
        { w1 with log := w1.log ++ [Event.setTimeout (.reviewSubmit itemId)] }, ?_⟩
      simp only [Act.run, renderItemReviews, hb, hp, Act.bind, Act.tryCatch, h, Act.pure]
      simp [Act.bind, Act.pure, JVal.getProp, List.lookup, Act.ofExcept, JVal.or,
        JVal.truthy, lengthTruthy, readUser, hr, emit]
    · refine ⟨"", w1, ?_⟩
      simp only [Act.run, renderItemReviews, hb, hp, Act.bind, Act.tryCatch, h, Act.pure]
      simp [Act.bind, Act.pure, JVal.getProp, List.lookup, Act.ofExcept, JVal.or,
        JVal.truthy, lengthTruthy, readUser, hr]

/-! ## Session store writes: claim C11 -/

theorem Storage.getItem_removeItem_other (s : Storage) (k j : String) (hj : j ≠ k) :
    (s.removeItem k).getItem j = s.getItem j := by
  induction s with
  | nil => rfl
  | cons kv rest ih =>
    obtain ⟨k1, v1⟩ := kv
    simp only [Storage.removeItem, Storage.getItem] at ih ⊢
    by_cases h1 : k1 = k
    · subst h1
      have hb : (j == k1) = false := by simpa using hj
      simpa [List.filter, List.lookup, hb] using ih
    · have hf : (k1 != k) = true := by simpa using h1
      by_cases h2 : j = k1
      · subst h2
        simp [List.filter, hf, List.lookup]
      · have hb : (j == k1) = false := by simpa using h2
        simpa [List.filter, hf, List.lookup, hb] using ih

theorem Storage.getItem_setItem_same (s : Storage) (k v : String) :
    (s.setItem k v).getItem k = some v := by
  simp [Storage.setItem, Storage.getItem, List.lookup]

theorem Storage.getItem_setItem_other (s : Storage) (k v j : String) (hj : j ≠ k) :
    (s.setItem k v).getItem j = s.getItem j := by
  have hb : (j == k) = false := by simpa using hj
  have h := Storage.getItem_removeItem_other s k j hj
  simp only [Storage.getItem] at h
  simp [Storage.setItem, Storage.getItem, List.lookup, hb, h]

/-- C11 (as stated, refuted): the empty string is a defined token, yet
`setAuth("", user)` does not write it: `getToken()` still returns the old token. -/
theorem setAuth_empty_token_not_written :
    getToken (setAuth (sampleHost renterText renterUser (.ok serverError)) (.str "") renterUser
        [(TOKEN_KEY, "old")]) = some "old" ∧
      some "old" ≠ some (toStr (sampleHost renterText renterUser (.ok serverError)) (.str "")) := by
  decide

/-- C11 (amended): for every prior storage state, `setAuth(token, user)` with
both arguments truthy leaves `getToken()` equal to the token (in string form)
and `getUser()` equal to `user`, provided `JSON.parse` inverts `JSON.stringify`
on `user`; with only the token truthy it overwrites the token entry and leaves
the user entry unchanged; with only the user truthy it overwrites the user entry
and leaves the token entry unchanged. -/
theorem setAuth_overwrites (H : Host) (token user : JVal) (s : Storage) :
    (token.truthy = true → user.truthy = true →
      getToken (setAuth H token user s) = some (toStr H token) ∧
      (setAuth H token user s).getItem USER_KEY = some (H.jsonStringify user) ∧
      (H.jsonStringify user ≠ "" → H.jsonParse (H.jsonStringify user) = .ok user →
        getUser H (setAuth H token user s) = .ok user)) ∧
    (token.truthy = true → user.truthy = false →
      getToken (setAuth H token user s) = some (toStr H token) ∧
      (setAuth H token user s).getItem USER_KEY = s.getItem USER_KEY) ∧
    (token.truthy = false → user.truthy = true →
      (setAuth H token user s).getItem USER_KEY = some (H.jsonStringify user) ∧
      getToken (setAuth H token user s) = getToken s) := by
  have hne : TOKEN_KEY ≠ USER_KEY := by decide
  refine ⟨fun ht hu => ⟨?_, ?_, fun hs hrt => ?_⟩, fun ht hu => ⟨?_, ?_⟩, fun ht hu => ⟨?_, ?_⟩⟩
  · simp only [setAuth, ht, hu, if_true, getToken]
    rw [Storage.getItem_setItem_other _ _ _ _ hne, Storage.getItem_setItem_same]
  · simp only [setAuth, ht, hu, if_true]
    rw [Storage.getItem_setItem_same]
  · simp only [setAuth, ht, hu, if_true, getUser]
    rw [Storage.getItem_setItem_same]
    simp [orStr, hs, hrt]
  · simp only [setAuth, ht, hu, if_true, Bool.false_eq_true, if_false, getToken]
    rw [Storage.getItem_setItem_same]
  · simp only [setAuth, ht, hu, if_true, Bool.false_eq_true, if_false]
    rw [Storage.getItem_setItem_other _ _ _ _ (Ne.symm hne)]
  · simp only [setAuth, ht, hu, if_true, Bool.false_eq_true, if_false]
    rw [Storage.getItem_setItem_same]
  · simp only [setAuth, ht, hu, if_true, Bool.false_eq_true, if_false, getToken]
    rw [Storage.getItem_setItem_other _ _ _ _ hne]

/-- C11 (amended), applied: over a stale session, `setAuth` with the token `tok`
and the sample renter makes `getUser()` return that renter. -/
theorem setAuth_overwrites_witness :
    getUser (sampleHost renterText renterUser (.ok serverError))
        (setAuth (sampleHost renterText renterUser (.ok serverError)) (.str "tok") renterUser
          [(USER_KEY, "stale"), (TOKEN_KEY, "old")]) = .ok renterUser :=
  ((setAuth_overwrites (sampleHost renterText renterUser (.ok serverError)) (.str "tok")
      renterUser [(USER_KEY, "stale"), (TOKEN_KEY, "old")]).1 rfl rfl).2.2 (by decide) rfl

/-! ## Item detail: claim C12 -/

theorem head_append (a b : String) (c : Char) (h : a.data.head? = some c) :
    (a ++ b).data.head? = some c := by
  rw [String.data_append]
  cases hd : a.data with
  | nil => simp [hd] at h
  | cons x xs =>
    rw [hd] at h
    simpa using h

theorem bookFormHtml_head (H : Host) (itemId : JVal) :
    (bookFormHtml H itemId).data.head? = some '\n' := by
  unfold bookFormHtml
  exact head_append _ _ _ (head_append _ _ _ (by decide))

theorem bookFormHtml_ne (H : Host) (itemId : JVal) :
    bookFormHtml H itemId ≠ loginPrompt ∧ bookFormHtml H itemId ≠ "" := by
  have h := bookFormHtml_head H itemId
  constructor
  · intro e
    rw [e] at h
    exact absurd h (by decide)
  · intro e
    rw [e] at h
    exact absurd h (by decide)

theorem getProp_of_nonnull (v : JVal) (hn : v ≠ .null) (hu : v ≠ .undefined) (k : String) :
    ∃ x, v.getProp k = .ok x := by
  cases v <;> simp_all [JVal.getProp]

theorem getProp_of_truthy (v : JVal) (ht : v.truthy = true) (k : String) :
    ∃ x, v.getProp k = .ok x := by
  cases v <;> simp_all [JVal.getProp, JVal.truthy]


theorem itemDetailHtml_ok (H : Host) (item : JVal) (form : String)
    (hn : item ≠ .null) (hu : item ≠ .undefined) :
    ∃ html, itemDetailHtml H item form = .ok html := by
  cases item <;> first | exact absurd rfl hn | exact absurd rfl hu | exact ⟨_, rfl⟩

theorem freeOf_append (pat a b : List Char) (ha : freeOf pat a = true)
    (hb : freeOf pat b = true) : freeOf pat (a ++ b) = true := by
  induction a with
  | nil => simpa using hb
  | cons c cs ih =>
    simp only [freeOf, Bool.and_eq_true, Bool.not_eq_true', ← Bool.not_eq_true,
      List.isPrefixOf_iff_prefix] at ha
    obtain ⟨⟨h1, h2⟩, h3⟩ := ha
    simp only [List.cons_append, freeOf, Bool.and_eq_true, Bool.not_eq_true',
      ← Bool.not_eq_true, List.isPrefixOf_iff_prefix]
    refine ⟨⟨?_, ?_⟩, ih h3⟩
    · intro h
      exact h1 ((List.prefix_append (c :: cs) b).trans h)
    · intro h
      rcases List.prefix_or_prefix_of_prefix h (List.prefix_append (c :: cs) b) with h' | h'
      · exact h2 h'
      · exact h1 h'

theorem freeOf_of_not_mem (h : Char) (t xs : List Char) (hx : h ∉ xs) :
    freeOf (h :: t) xs = true := by
  induction xs with
  | nil => rfl
  | cons c cs ih =>
    have hc : c ≠ h := fun e => hx (by simp [e])
    have hcs : h ∉ cs := fun e => hx (List.mem_cons_of_mem _ e)
    simp [freeOf, List.isPrefixOf, hc, Ne.symm hc, ih hcs]

theorem freeOf_suffix (pat s xs : List Char) (h : freeOf pat (s ++ xs) = true) :
    freeOf pat xs = true := by
  induction s with
  | nil => simpa using h
  | cons c cs ih =>
    simp only [List.cons_append, freeOf, Bool.and_eq_true] at h
    exact ih h.2

theorem not_infix_of_freeOf (pat xs : List Char) (hp : pat ≠ [])
    (h : freeOf pat xs = true) : ¬ pat <:+: xs := by
  rintro ⟨s, t, rfl⟩
  rw [List.append_assoc] at h
  have h2 := freeOf_suffix pat s (pat ++ t) h
  cases pat with
  | nil => exact hp rfl
  | cons c cs =>
    have hpre : (c :: cs).isPrefixOf (c :: cs ++ t) = true :=
      List.isPrefixOf_iff_prefix.mpr (List.prefix_append _ _)
    simp only [List.cons_append, freeOf, Bool.and_eq_true, Bool.not_eq_true'] at h2
    have h3 : (c :: cs).isPrefixOf (c :: cs ++ t) = false := h2.1.2
    rw [hpre] at h3
    exact absurd h3 (by simp)


theorem getProp_field (v : JVal) (hn : v ≠ .null) (hu : v ≠ .undefined) (k : String) :
    v.getProp k = .ok (v.field k) := by
  cases v <;> simp_all [JVal.getProp, JVal.field]

theorem escapeHtml_no_lt (H : Host) (hEnc : ∀ t, '<' ∉ (H.htmlEncode t).data) (v : JVal) :
    '<' ∉ (escapeHtml H v).data := by
  cases v <;> first | exact hEnc _ | (intro h; cases h)

theorem freeOf_of_head (pat xs : List Char) (h : Char) (hp : pat.head? = some h)
    (hx : h ∉ xs) : freeOf pat xs = true := by
  cases pat with
  | nil => simp at hp
  | cons c cs =>
    simp only [List.head?_cons, Option.some.injEq] at hp
    subst hp
    exact freeOf_of_not_mem _ _ _ hx

theorem itemDetailHtml_freeOf_form (H : Host) (hEnc : ∀ t, '<' ∉ (H.htmlEncode t).data)
    (hFix : ∀ v, '<' ∉ (H.toFixed2 v).data) (item : JVal) (form html : String)
    (hn : item ≠ .null) (hu : item ≠ .undefined)
    (h : itemDetailHtml H item form = .ok html)
    (hform : freeOf bookFormMarker.data form.data = true) :
    freeOf bookFormMarker.data html.data = true := by
  have hbe : ∀ {α β : Type} (a : α) (f : α → Except JsError β),
      ((Except.ok a : Except JsError α) >>= f) = f a := fun _ _ => rfl
  have hpe : ∀ {α : Type} (a : α), (pure a : Except JsError α) = .ok a := fun _ => rfl
  unfold itemDetailHtml at h
  rw [getProp_field item hn hu "title", getProp_field item hn hu "description",
    getProp_field item hn hu "daily_price", getProp_field item hn hu "security_deposit",
    getProp_field item hn hu "location_text"] at h
  simp only [hbe, hpe] at h
  have h2 := (Except.ok.inj h).symm
  subst h2
  have hesc : ∀ v, freeOf bookFormMarker.data (escapeHtml H v).data = true :=
    fun v => freeOf_of_head _ _ '<' rfl (escapeHtml_no_lt H hEnc v)
  have hfix : ∀ v, freeOf bookFormMarker.data (H.toFixed2 v).data = true :=
    fun v => freeOf_of_head _ _ '<' rfl (hFix v)
  simp only [String.data_append]
  refine freeOf_append _ _ _ (freeOf_append _ _ _ (freeOf_append _ _ _ (freeOf_append _ _ _ (freeOf_append _ _ _ (freeOf_append _ _ _ (freeOf_append _ _ _ (freeOf_append _ _ _ (freeOf_append _ _ _ (freeOf_append _ _ _ (freeOf_append _ _ _ (freeOf_append _ _ _ ?_ ?_) ?_) ?_) ?_) ?_) ?_) ?_) ?_) ?_) ?_) ?_) ?_
  · decide
  · exact hesc _
  · decide
  · exact hesc _
  · decide
  · exact hfix _
  · decide
  · exact hfix _
  · decide
  · split
    · simp only [String.data_append]
      refine freeOf_append _ _ _ (freeOf_append _ _ _ ?_ (hesc _)) ?_ <;> decide
    · decide
  · decide
  · exact hform
  · decide

theorem itemDetailHtml_freeOf_prompt (H : Host) (hEnc : ∀ t, '<' ∉ (H.htmlEncode t).data)
    (hFix : ∀ v, '<' ∉ (H.toFixed2 v).data) (item : JVal) (form html : String)
    (hn : item ≠ .null) (hu : item ≠ .undefined)
    (h : itemDetailHtml H item form = .ok html)
    (hform : freeOf loginPrompt.data form.data = true) :
    freeOf loginPrompt.data html.data = true := by
  have hbe : ∀ {α β : Type} (a : α) (f : α → Except JsError β),
      ((Except.ok a : Except JsError α) >>= f) = f a := fun _ _ => rfl
  have hpe : ∀ {α : Type} (a : α), (pure a : Except JsError α) = .ok a := fun _ => rfl
  unfold itemDetailHtml at h
  rw [getProp_field item hn hu "title", getProp_field item hn hu "description",
    getProp_field item hn hu "daily_price", getProp_field item hn hu "security_deposit",
    getProp_field item hn hu "location_text"] at h
  simp only [hbe, hpe] at h
  have h2 := (Except.ok.inj h).symm
  subst h2
  have hesc : ∀ v, freeOf loginPrompt.data (escapeHtml H v).data = true :=
    fun v => freeOf_of_head _ _ '<' rfl (escapeHtml_no_lt H hEnc v)
  have hfix : ∀ v, freeOf loginPrompt.data (H.toFixed2 v).data = true :=
    fun v => freeOf_of_head _ _ '<' rfl (hFix v)
  simp only [String.data_append]
  refine freeOf_append _ _ _ (freeOf_append _ _ _ (freeOf_append _ _ _ (freeOf_append _ _ _ (freeOf_append _ _ _ (freeOf_append _ _ _ (freeOf_append _ _ _ (freeOf_append _ _ _ (freeOf_append _ _ _ (freeOf_append _ _ _ (freeOf_append _ _ _ (freeOf_append _ _ _ ?_ ?_) ?_) ?_) ?_) ?_) ?_) ?_) ?_) ?_) ?_) ?_) ?_
  · decide
  · exact hesc _
  · decide
  · exact hesc _
  · decide
  · exact hfix _
  · decide
  · exact hfix _
  · decide
  · split
    · simp only [String.data_append]
      refine freeOf_append _ _ _ (freeOf_append _ _ _ ?_ (hesc _)) ?_ <;> decide
    · decide
  · decide
  · exact hform
  · decide

theorem form_infix_itemDetailHtml (H : Host) (item : JVal) (form html : String)
    (hn : item ≠ .null) (hu : item ≠ .undefined)
    (h : itemDetailHtml H item form = .ok html) : form.data <:+: html.data := by
  have hbe : ∀ {α β : Type} (a : α) (f : α → Except JsError β),
      ((Except.ok a : Except JsError α) >>= f) = f a := fun _ _ => rfl
  have hpe : ∀ {α : Type} (a : α), (pure a : Except JsError α) = .ok a := fun _ => rfl
  unfold itemDetailHtml at h
  rw [getProp_field item hn hu "title", getProp_field item hn hu "description",
    getProp_field item hn hu "daily_price", getProp_field item hn hu "security_deposit",
    getProp_field item hn hu "location_text"] at h
  simp only [hbe, hpe] at h
  have h2 := (Except.ok.inj h).symm
  subst h2
  rw [String.data_append, String.data_append]
  exact List.infix_append _ _ _

theorem bookFormMarker_infix_bookFormHtml (H : Host) (itemId : JVal) :
    bookFormMarker.data <:+: (bookFormHtml H itemId).data := by
  unfold bookFormHtml
  rw [String.data_append, String.data_append, List.append_assoc]
  refine List.IsInfix.trans ?_ (List.prefix_append _ _).isInfix
  exact ⟨"
      <div class=\"card\" style=\"margin-top:1rem\">
        <h3>Request booking</h3>
        ".data, "
          <input type=\"hidden\" name=\"item_id\" value=\"".data, by decide⟩

set_option maxRecDepth 100000 in
theorem bookFormHtml_freeOf_prompt (H : Host) (hEnc : ∀ t, '<' ∉ (H.htmlEncode t).data)
    (itemId : JVal) : freeOf loginPrompt.data (bookFormHtml H itemId).data = true := by
  unfold bookFormHtml
  rw [String.data_append, String.data_append]
  refine freeOf_append _ _ _ (freeOf_append _ _ _ ?_ ?_) ?_
  · decide
  · exact freeOf_of_head _ _ '<' rfl (escapeHtml_no_lt H hEnc itemId)
  · decide

/-- C12: when the item fetch returns an item (a value other than `null`), and
the host's HTML encoding and `toFixed` produce no `<`, the page `renderItem`
returns contains the opening tag of the booking-request form exactly when a
user is present and `user.id !== item.owner_id` (and then it contains the whole
form); it contains the login prompt exactly when no user is present; and when
the viewer is the owner it contains neither. -/
theorem renderItem_booking_form (H : Host) (id : String) (w w1 : World) (item : JVal)
    (hapi : api H ("/items/" ++ id) Options.empty w = .ok item w1)
    (hn : item ≠ .null) (hu : item ≠ .undefined)
    (hEnc : ∀ t, '<' ∉ (H.htmlEncode t).data) (hFix : ∀ v, '<' ∉ (H.toFixed2 v).data) :
    ∃ html itemId owner w2,
      (renderItem H id).run w = .ok html w2 ∧
      item.getProp "id" = .ok itemId ∧ item.getProp "owner_id" = .ok owner ∧
      (bookFormMarker.data <:+: html.data ↔
        (currentUser H w1.storage).truthy = true ∧
          ∃ uid, (currentUser H w1.storage).getProp "id" = .ok uid ∧
            uid.strictEq owner = false) ∧
      (bookFormMarker.data <:+: html.data → (bookFormHtml H itemId).data <:+: html.data) ∧
      (loginPrompt.data <:+: html.data ↔ (currentUser H w1.storage).truthy = false) ∧
      ((currentUser H w1.storage).truthy = true →
        (∃ uid, (currentUser H w1.storage).getProp "id" = .ok uid ∧
          uid.strictEq owner = true) →
        ¬ bookFormMarker.data <:+: html.data ∧ ¬ loginPrompt.data <:+: html.data) := by
  have hb : ∀ {α β : Type} (m : Act α) (f : α → Act β), (m >>= f) = Act.bind m f :=
    fun _ _ => rfl
  have hp : ∀ {α : Type} (a : α), (pure a : Act α) = Act.pure a := fun _ => rfl
  have hbe : ∀ {α β : Type} (a : α) (f : α → Except JsError β),
      ((Except.ok a : Except JsError α) >>= f) = f a := fun _ _ => rfl
  have hpe : ∀ {α : Type} (a : α), (pure a : Except JsError α) = .ok a := fun _ => rfl
  have hm0 : bookFormMarker.data ≠ [] := by decide
  have hp0 : loginPrompt.data ≠ [] := by decide
  obtain ⟨itemId, hid⟩ := getProp_of_nonnull item hn hu "id"
  obtain ⟨owner, howner⟩ := getProp_of_nonnull item hn hu "owner_id"
  cases ht : (currentUser H w1.storage).truthy with
  | false =>
    have hcan : canBook (currentUser H w1.storage) item = .ok false := by
      simp [canBook, ht, hpe]
    have hform : bookForm H (currentUser H w1.storage) item = .ok loginPrompt := by
      simp [bookForm, hcan, hbe, hpe, ht]
    obtain ⟨html, hhtml⟩ := itemDetailHtml_ok H item loginPrompt hn hu
    have hnoform : ¬ bookFormMarker.data <:+: html.data :=
      not_infix_of_freeOf _ _ hm0
        (itemDetailHtml_freeOf_form H hEnc hFix item _ html hn hu hhtml (by decide))
    have hprompt : loginPrompt.data <:+: html.data :=
      form_infix_itemDetailHtml H item _ html hn hu hhtml
    refine ⟨html, itemId, owner, w1, ?_, hid, howner, ?_, ?_, ?_, ?_⟩
    · simp [Act.run, renderItem, hb, hp, Act.bind, hapi, readUser, hcan, hform, hhtml,
        Act.ofExcept, Act.pure]
    · exact ⟨fun h => absurd h hnoform, fun h => absurd h.1 (by simp)⟩
    · exact fun h => absurd h hnoform
    · exact ⟨fun _ => rfl, fun _ => hprompt⟩
    · intro h
      exact absurd h (by simp)
  | true =>
    obtain ⟨uid, huid⟩ := getProp_of_truthy _ ht "id"
    cases hs : uid.strictEq owner with
    | false =>
      have hcan : canBook (currentUser H w1.storage) item = .ok true := by
        simp [canBook, ht, huid, howner, hbe, hpe, hs]
      have hform : bookForm H (currentUser H w1.storage) item
          = .ok (bookFormHtml H itemId) := by
        simp [bookForm, hcan, hbe, hpe, hid]
      obtain ⟨html, hhtml⟩ := itemDetailHtml_ok H item (bookFormHtml H itemId) hn hu
      have hwhole : (bookFormHtml H itemId).data <:+: html.data :=
        form_infix_itemDetailHtml H item _ html hn hu hhtml
      have hnoprompt : ¬ loginPrompt.data <:+: html.data :=
        not_infix_of_freeOf _ _ hp0
          (itemDetailHtml_freeOf_prompt H hEnc hFix item _ html hn hu hhtml
            (bookFormHtml_freeOf_prompt H hEnc itemId))
      refine ⟨html, itemId, owner,
        { w1 with log := w1.log ++ [Event.setTimeout .bookSubmit] },
        ?_, hid, howner, ?_, ?_, ?_, ?_⟩
      · simp [Act.run, renderItem, hb, hp, Act.bind, hapi, readUser, hcan, hform, hhtml,
          Act.ofExcept, Act.pure, emit]
      · exact ⟨fun _ => ⟨rfl, uid, huid, hs⟩,
          fun _ => (bookFormMarker_infix_bookFormHtml H itemId).trans hwhole⟩
      · exact fun _ => hwhole
      · exact ⟨fun h => absurd h hnoprompt, fun h => absurd h (by simp)⟩
      · rintro - ⟨u, hu1, hu2⟩
        rw [huid] at hu1
        cases hu1
        rw [hs] at hu2
        cases hu2
    | true =>
      have hcan : canBook (currentUser H w1.storage) item = .ok false := by
        simp [canBook, ht, huid, howner, hbe, hpe, hs]
      have hform : bookForm H (currentUser H w1.storage) item = .ok "" := by
        simp [bookForm, hcan, hbe, hpe, ht]
      obtain ⟨html, hhtml⟩ := itemDetailHtml_ok H item "" hn hu
      have hnoform : ¬ bookFormMarker.data <:+: html.data :=
        not_infix_of_freeOf _ _ hm0
          (itemDetailHtml_freeOf_form H hEnc hFix item _ html hn hu hhtml (by decide))
      have hnoprompt : ¬ loginPrompt.data <:+: html.data :=
        not_infix_of_freeOf _ _ hp0
          (itemDetailHtml_freeOf_prompt H hEnc hFix item _ html hn hu hhtml (by decide))
      refine ⟨html, itemId, owner, w1, ?_, hid, howner, ?_, ?_, ?_, ?_⟩
      · simp [Act.run, renderItem, hb, hp, Act.bind, hapi, readUser, hcan, hform, hhtml,
          Act.ofExcept, Act.pure]
      · refine ⟨fun h => absurd h hnoform, ?_⟩
        rintro ⟨-, u, hu1, hu2⟩
        rw [huid] at hu1
        cases hu1
        rw [hs] at hu2
        cases hu2
      · exact fun h => absurd h hnoform
      · exact ⟨fun h => absurd h hnoprompt, fun h => absurd h (by simp)⟩
      · exact fun _ _ => ⟨hnoform, hnoprompt⟩

theorem encodingHost_no_lt (userText : String) (user : JVal)
    (reply : Except JsError Response) (t : String) :
    '<' ∉ ((encodingHost userText user reply).htmlEncode t).data := by
  simp only [encodingHost, List.mem_flatMap, not_exists, not_and]
  intro c _ h
  by_cases hc : c = '<'
  · rw [if_pos hc] at h
    revert h
    decide
  · rw [if_neg hc] at h
    simp only [List.mem_singleton] at h
    exact hc h.symm

/-- C12, applied: the sample owner viewing the own item `i1` gets a page with
neither the booking-request form nor the login prompt. -/
theorem renderItem_booking_form_witness :
    ∃ html w2,
      (renderItem (encodingHost ownerText ownerUser (.ok drillReply)) "i1").run
          (sampleWorld [(USER_KEY, ownerText)] "#item/i1") = .ok html w2 ∧
        ¬ bookFormMarker.data <:+: html.data ∧ ¬ loginPrompt.data <:+: html.data :=
  let ⟨html, _, owner, w2, h1, _, h3, _, _, _, h7⟩ :=
    renderItem_booking_form (encodingHost ownerText ownerUser (.ok drillReply)) "i1"
      (sampleWorld [(USER_KEY, ownerText)] "#item/i1") _ drillItem rfl
      (fun e => JVal.noConfusion e) (fun e => JVal.noConfusion e)
      (encodingHost_no_lt ownerText ownerUser (.ok drillReply))
      (fun _ => (by decide : '<' ∉ "0.00".data))
  have ho : owner = .str "u2" := (Except.ok.inj h3).symm
  ⟨html, w2, h1, h7 rfl ⟨.str "u2", rfl, by rw [ho]; rfl⟩⟩

/-! ## Messages: claim C13 -/

theorem lookup_isSome_iff {α : Type} (l : List (String × α)) (k : String) :
    (l.lookup k).isSome = true ↔ k ∈ l.map Prod.fst := by
  induction l with
  | nil => simp [List.lookup]
  | cons kv rest ih =>
    obtain ⟨k1, v1⟩ := kv
    by_cases h : k = k1
    · subst h
      simp [List.lookup]
    · have hb : (k == k1) = false := by simpa using h
      simp [List.lookup, hb, ih, h]

theorem groupStep_eq (H : Host) (user : JVal) (hu : user.truthy = true)
    (convs : List (String × Conversation)) (msg : JVal)
    (hn : msg ≠ .null) (hd : msg ≠ .undefined)
    (hk : expectedKey H msg ∉ objectPrototypeKeys) :
    groupStep H user convs msg
      = .ok (if expectedKey H msg ∈ convs.map Prod.fst then convs
             else convs ++ [(expectedKey H msg, expectedConversation user msg)]) := by
  have hbe : ∀ {α β : Type} (a : α) (f : α → Except JsError β),
      ((Except.ok a : Except JsError α) >>= f) = f a := fun _ _ => rfl
  have hpe : ∀ {α : Type} (a : α), (pure a : Except JsError α) = .ok a := fun _ => rfl
  have hun : user ≠ .null := by intro e; simp [e, JVal.truthy] at hu
  have hud : user ≠ .undefined := by intro e; simp [e, JVal.truthy] at hu
  have hk2 : toStr H (msg.field "conversation_id") ∉ objectPrototypeKeys := hk
  unfold groupStep
  rw [getProp_field msg hn hd "conversation_id", getProp_field msg hn hd "sender_id",
    getProp_field msg hn hd "receiver_id", getProp_field user hun hud "id"]
  simp only [hbe, hpe, expectedKey, expectedConversation, lookup_isSome_iff, hk2, or_false]
  by_cases hin : toStr H (msg.field "conversation_id") ∈ convs.map Prod.fst
  · simp only [hin, if_true]
  · simp only [hin, if_false]
    by_cases hs : (msg.field "sender_id").strictEq (user.field "id") = true
    · simp only [hs, if_true, hbe]
    · simp only [hs, if_false, hbe, Bool.false_eq_true]

theorem foldlM_groupStep (H : Host) (user : JVal) (hu : user.truthy = true) :
    ∀ (msgs : List JVal) (acc : List (String × Conversation)),
      (∀ m ∈ msgs, m ≠ .null ∧ m ≠ .undefined ∧ expectedKey H m ∉ objectPrototypeKeys) →
      ∃ R, msgs.foldlM (groupStep H user) acc = .ok R ∧
        ((acc.map Prod.fst).Nodup → (R.map Prod.fst).Nodup) ∧
        (∀ k, k ∈ R.map Prod.fst ↔ k ∈ acc.map Prod.fst ∨ k ∈ msgs.map (expectedKey H)) ∧
        (∀ k c, (k, c) ∈ R → (k, c) ∈ acc ∨
          (k ∉ acc.map Prod.fst ∧
            ∃ m, msgs.find? (fun m => expectedKey H m == k) = some m ∧
              c = expectedConversation user m)) := by
  intro msgs
  induction msgs with
  | nil =>
    intro acc _
    exact ⟨acc, rfl, id, by simp, fun k c h => Or.inl h⟩
  | cons m rest ih =>
    intro acc hall
    obtain ⟨hn, hd, hk⟩ := hall m (List.mem_cons_self _ _)
    have hrest : ∀ x ∈ rest, x ≠ .null ∧ x ≠ .undefined ∧
        expectedKey H x ∉ objectPrototypeKeys :=
      fun x hx => hall x (List.mem_cons_of_mem _ hx)
    have hstep := groupStep_eq H user hu acc m hn hd hk
    by_cases hin : expectedKey H m ∈ acc.map Prod.fst
    · rw [if_pos hin] at hstep
      obtain ⟨R, hR, hnd, hkeys, hent⟩ := ih acc hrest
      refine ⟨R, ?_, hnd, ?_, ?_⟩
      · show (groupStep H user acc m >>= fun a => rest.foldlM (groupStep H user) a) = _
        rw [hstep]
        exact hR
      · intro k
        rw [hkeys k]
        simp only [List.map_cons, List.mem_cons]
        constructor
        · rintro (h | h)
          · exact Or.inl h
          · exact Or.inr (Or.inr h)
        · rintro (h | h | h)
          · exact Or.inl h
          · exact Or.inl (h ▸ hin)
          · exact Or.inr h
      · intro k c hkc
        rcases hent k c hkc with h | ⟨hnot, m1, hf, hc⟩
        · exact Or.inl h
        · refine Or.inr ⟨hnot, m1, ?_, hc⟩
          have hne : (expectedKey H m == k) = false := by
            simp only [beq_eq_false_iff_ne, ne_eq]
            intro e
            exact hnot (e ▸ hin)
          simp [List.find?, hne, hf]
    · rw [if_neg hin] at hstep
      obtain ⟨R, hR, hnd, hkeys, hent⟩ :=
        ih (acc ++ [(expectedKey H m, expectedConversation user m)]) hrest
      refine ⟨R, ?_, ?_, ?_, ?_⟩
      · show (groupStep H user acc m >>= fun a => rest.foldlM (groupStep H user) a) = _
        rw [hstep]
        exact hR
      · intro hacc
        apply hnd
        simp only [List.map_append, List.map_cons, List.map_nil]
        rw [List.nodup_append]
        refine ⟨hacc, by simp, ?_⟩
        intro a ha hb
        simp only [List.mem_singleton] at hb
        exact hin (hb ▸ ha)
      · intro k
        rw [hkeys k]
        simp only [List.map_append, List.map_cons, List.map_nil, List.mem_append,
          List.mem_cons, List.not_mem_nil, or_false]
        tauto
      · intro k c hkc
        rcases hent k c hkc with h | ⟨hnot, m1, hf, hc⟩
        · simp only [List.mem_append, List.mem_singleton, Prod.mk.injEq] at h
          rcases h with h | ⟨h1, h2⟩
          · exact Or.inl h
          · subst h1 h2
            refine Or.inr ⟨hin, m, ?_, rfl⟩
            simp [List.find?]
        · simp only [List.map_append, List.map_cons, List.map_nil, List.mem_append,
            List.mem_singleton, not_or] at hnot
          refine Or.inr ⟨hnot.1, m1, ?_, hc⟩
          have hne : (expectedKey H m == k) = false := by
            simp only [beq_eq_false_iff_ne, ne_eq]
            exact fun e => hnot.2 e.symm
          simp [List.find?, hne, hf]


/-- Off the inherited property names the grouping is the one claim C13
describes: for a present user and messages whose keys are not names of
`Object.prototype` properties, `groupMessages` returns one conversation per
distinct key, each holding the first message of the list with that key and the
other participant computed from that message. -/
theorem groupMessages_off_prototype (H : Host) (user : JVal) (msgs : List JVal)
    (hu : user.truthy = true)
    (hall : ∀ m ∈ msgs, m ≠ .null ∧ m ≠ .undefined ∧
      expectedKey H m ∉ objectPrototypeKeys) :
    ∃ R, groupMessages H user (.arr msgs) = .ok R ∧
      (R.map Prod.fst).Nodup ∧
      (∀ k, k ∈ R.map Prod.fst ↔ k ∈ msgs.map (expectedKey H)) ∧
      (∀ k c, (k, c) ∈ R →
        ∃ m, msgs.find? (fun m => expectedKey H m == k) = some m ∧
          c = expectedConversation user m) := by
  obtain ⟨R, hR, hnd, hkeys, hent⟩ := foldlM_groupStep H user hu msgs [] hall
  refine ⟨R, hR, hnd List.nodup_nil, fun k => by simpa using hkeys k, fun k c hkc => ?_⟩
  rcases hent k c hkc with h | ⟨_, h⟩
  · simp at h
  · exact h

/-- C13 (the code at the failing input): a message whose `conversation_id` is
`constructor` yields no conversation: of the two distinct ids in the list
`[constructorMessage, plainMessage]` only `c1` gets one, and a list holding
`constructorMessage` alone renders the empty-state message. -/
theorem groupMessages_drops_constructor :
    ((groupMessages (sampleHost renterText renterUser (.ok constructorReply)) renterUser
        (.arr [constructorMessage, plainMessage])).toOption.map
      (fun convs => convs.map Prod.fst)) = some ["c1"] ∧
    ((renderMessages (sampleHost renterText renterUser (.ok constructorReply))
        (render (sampleHost renterText renterUser (.ok constructorReply)) 1)).run
        (sampleWorld [(USER_KEY, renterText)] "#messages")).value?
      = some ("<h1 class=\"page-title\">Messages</h1>
    <div class=\"card\">
      <p>Real-time chat is available via WebSocket at /chat/ws/\x7bconversation_id\x7d</p>
    </div>
    " ++ messagesEmpty) := by
  refine ⟨?_, ?_⟩
  · decide
  · rfl

end RentAThing
